import Mathlib

set_option maxRecDepth 10000

/-!
Verification development for the Concorde tree-walking interpreter
(files src/types.rs, src/runtime/mod.rs, src/runtime/object.rs,
src/runtime/interpret.rs, src/runtime/bootstrap.rs, src/runtime/builtin.rs).

Shallow embedding conventions:
* An object reference (Rust Rc<RefCell<Object>>) is a heap index (Nat); the
  heap is a list of Object records; reference identity is index equality,
  matching the PartialEq impl for Object (weak_self pointer equality).
* HashMap fields become association lists with replace-on-insert semantics;
  only lookup and insert are used by the interpreter, so ordering is
  irrelevant to every claim.
* The Number primitive (Rust f64) is modelled as Int.  Every claim under
  consideration evaluates numbers only at integral values, where f64
  arithmetic (add, sub, mul, neg, comparisons) is exact and the Rust
  cast to isize in the Array indexing builtin is the identity.  The
  float-specific builtins (division, pow, round, ceil, floor) and the
  string-formatting builtins (to_s, trim, String addition) as well as the
  IO printing builtins are outside every claim and are not modelled.
* Rust panics (unwrap or expect on None, todo, unimplemented, and the
  missing operator-method case of method_for_binary_op followed by unwrap)
  are modelled by the distinguished error value Error.panicked.
* Node source metadata (NodeMeta) is used by the interpreter only to build
  human-readable diagnostics, never for semantics (spec section 6), and is
  dropped; error variants keep the semantically relevant payload fields.
* Rust can diverge (while loops, recursion through the object graph); the
  interpreter is indexed by fuel, one unit per nested interpreter call, and
  yields the artificial error value Error.outOfFuel when fuel runs out.
-/

/-! ## AST (types.rs, the node shapes read by the evaluator) -/

inductive Operator where
  | equal | equalEqual | notEqual | greater | greaterEqual | less | lessEqual
  | plus | minus | star | percent | slash
  | plusEqual | minusEqual | starEqual | slashEqual
  | logicalAnd | logicalOr | logicalNot
deriving DecidableEq

mutual

inductive Expression where
  | var (name : String)
  | call (target : Expression) (arguments : List Expression)
  | access (target : Expression) (member : Expression)
  | index (target : Expression) (idx : Expression)
  | binary (op : Operator) (lhs rhs : Expression)
  | unary (op : Operator) (rhs : Expression)
  | ifElse (condition : Expression) (thenBody : Block) (elseBody : Option Block)
  | path (components : List String)
  | closure (binding : List String) (body : Block)
  | lit (l : Literal)

inductive Literal where
  | number (value : Int)
  | boolean (value : Bool)
  | stringLit (value : String)
  | nilLit
  | array (elements : List Expression)
  | tuple (items : List Expression)
  | dictionary (entries : List (String × Expression))

inductive Statement where
  | expression (e : Expression)
  | assignment (target : LValue) (op : Operator) (value : Expression)
  | classDefinition (name : String) (body : Block)
  | methodDefinition (isClassMethod : Bool) (name : String)
      (parameters : List String) (body : Block)
  | forIn (binding : List String) (iterable : Expression) (body : Block)
  | whileLoop (condition : Expression) (body : Block)
  | breakS
  | continueS
  | returnS (retval : Option Expression)
  | useS (path : List String)

inductive LValue where
  | lvVar (name : String)
  | lvAccess (target : Expression) (member : Expression)
  | lvIndex (target : Expression) (idx : Expression)

inductive Block where
  | mk (statements : List Statement)

end

def Block.statements : Block → List Statement
  | .mk s => s

/-! ## Object model (object.rs) -/

inductive MethodReceiver where
  | inst   -- MethodReceiver::Instance
  | cls    -- MethodReceiver::Class
deriving DecidableEq

/-- Defunctionalisation of the closed set of Rust system-method function
pointers installed by bootstrap.rs (plus the synthesized no-op init closure
of object.rs get_init_method, and the two spec-modelled iterator methods,
see the doc comments at their implementations). -/
inductive SystemTag where
  | numberInit | numberEq | numberNeq | numberLt | numberLte | numberGt
  | numberGte | numberAdd | numberSub | numberMul | numberNeg
  | stringInit | stringEq | stringNeq
  | objectEq | objectNeq
  | nilInit
  | boolNot | boolInit
  | arrayInit | arrayIndex | arrayAdd | arrayPush | arrayPop | arrayLen
  | dictInit | dictIndex | dictSetIndex
  | synthesizedInit
  | specArrayIter | specArrayIterNext
deriving DecidableEq

inductive MethodBody where
  | user (body : Block)
  | system (tag : SystemTag)

inductive Param where
  | positional (name : String)
  | vararg (name : String)

inductive Primitive where
  | str (s : String)
  | num (n : Int)
  | bool (b : Bool)
  | arr (elements : List Nat)
  | dict (entries : List (String × Nat))

/-- Method record (object.rs).  The weak class back-reference is a heap
index; in this model nothing is ever freed, so the Rust upgrade always
succeeds. -/
structure Method where
  name : String
  cls : Nat
  params : List Param
  body : MethodBody
  receiver : MethodReceiver

/-- Object (object.rs).  The weak_self field is represented by the heap
index of the object itself; the diagnostic-only _name field (kept in sync by
set_property and read only by Debug printing) is dropped. -/
structure Object where
  cls? : Option Nat
  superclass? : Option Nat
  properties : List (String × Nat)
  methods : List (String × Method)
  primitive : Option Primitive

/-! ## Runtime state (runtime/mod.rs) -/

/-- Error taxonomy (runtime/mod.rs enum Error), without the NodeMeta
diagnostic payloads. -/
inductive Error where
  | controlFlowBreak
  | controlFlowContinue
  | returnFromMethod (retval : Option Nat)
  | returnFromInitializer
  | duplicateMethodDefinition (cls name : String)
  | noSuchVariable (name : String)
  | noSuchProperty (name : String)
  | noSuchMethod (search : String)
  | objectNotCallable
  | arityMismatch (clsName methodName : String) (expected actual : Nat)
  | undefinedProperty (target member : String)
  | notCallable
  | illegalAssignmentTarget
  | indexError (msg : String)
  | illegalConstructorCall (cls : String)
  | typeMismatch (expected cls : String)
  | badPath (nonClass : String)
  | badIterator (reason : String)
  | panicked
  | outOfFuel
deriving DecidableEq

/-- StackFrame (runtime/mod.rs).  The diagnostic-only _method and _context
fields (read only by the Display impl) are dropped. -/
structure StackFrame where
  id : Nat := 0
  inst : Option Nat := none       -- field name: instance
  cls : Option Nat := none        -- field name: class
  openClasses : List Nat := []    -- field name: open_classes
  vars : List (String × Nat) := []   -- field name: variables

/-- The well-known objects built by bootstrap.rs (struct Builtins).  Field
renamings: the source field IO is called ioClass here.  The fields cClosure,
cMethod and cArrayIter have no counterpart in the define_builtins list of
bootstrap.rs although interpret.rs reads builtins.Closure, mod.rs reads
builtins.Method and builtin.rs declares the class name ArrayIter; see the
spec-modelled part of the bootstrap below. -/
structure Builtins where
  cClass : Nat := 0
  cObject : Nat := 0
  cString : Nat := 0
  cNilClass : Nat := 0
  cBool : Nat := 0
  cNumber : Nat := 0
  cArray : Nat := 0
  cTuple : Nat := 0
  cDictionary : Nat := 0
  cDictionaryIter : Nat := 0
  ioClass : Nat := 0
  cMain : Nat := 0
  boolTrue : Nat := 0
  boolFalse : Nat := 0
  nilO : Nat := 0
  cClosure : Nat := 0
  cMethod : Nat := 0
  cArrayIter : Nat := 0

/-- Runtime (runtime/mod.rs).  The all_objects leak-tracking registry of
weak references is dropped (never read by evaluation).  The strings map
holds interned string objects; in this model nothing is freed, so the Rust
weak upgrade always succeeds and the cleanup_strings sweep together with
string_count_marker is a no-op that is dropped. -/
structure Runtime where
  heap : List Object := []
  builtins : Builtins := {}
  stack : List StackFrame := []
  stackId : Nat := 0
  strings : List (String × Nat) := []

/-! ## Association-list and heap helpers -/

def lookupAssoc {α : Type} : List (String × α) → String → Option α
  | [], _ => none
  | (k, v) :: rest, key => if k == key then some v else lookupAssoc rest key

def insertAssoc {α : Type} : List (String × α) → String → α → List (String × α)
  | [], key, v => [(key, v)]
  | (k, w) :: rest, key, v =>
    if k == key then (k, v) :: rest else (k, w) :: insertAssoc rest key v

def heapGet (rt : Runtime) (i : Nat) : Option Object :=
  rt.heap.get? i

def updateObject (rt : Runtime) (i : Nat) (f : Object → Object) : Runtime :=
  match rt.heap.get? i with
  | none => rt
  | some o => { rt with heap := rt.heap.set i (f o) }

/-- Object::set_property (the _name bookkeeping is dropped, see Object). -/
def setPropertyR (rt : Runtime) (i : Nat) (name : String) (value : Nat) : Runtime :=
  updateObject rt i (fun o => { o with properties := insertAssoc o.properties name value })

/-- Object::get_property: own property map only, no superclass walk. -/
def getPropertyR (rt : Runtime) (i : Nat) (name : String) : Option Nat :=
  (heapGet rt i).bind (fun o => lookupAssoc o.properties name)

def setPrimitiveR (rt : Runtime) (i : Nat) (p : Primitive) : Runtime :=
  updateObject rt i (fun o => { o with primitive := some p })

/-- Object::__class__ without the unwrap (call sites that would panic on a
class-less object map the none case to Error.panicked explicitly). -/
def classOf (rt : Runtime) (i : Nat) : Option Nat :=
  (heapGet rt i).bind (fun o => o.cls?)

/-- Object::__name__: the __name__ property, if present and a string. -/
def objName (rt : Runtime) (i : Nat) : Option String :=
  match getPropertyR rt i "__name__" with
  | none => none
  | some p =>
    match heapGet rt p with
    | some o =>
      match o.primitive with
      | some (.str s) => some s
      | _ => none
    | none => none

def numValAt (rt : Runtime) (i : Nat) : Option Int :=
  match heapGet rt i with
  | some o => match o.primitive with | some (.num n) => some n | _ => none
  | none => none

def strValAt (rt : Runtime) (i : Nat) : Option String :=
  match heapGet rt i with
  | some o => match o.primitive with | some (.str s) => some s | _ => none
  | none => none

def boolValAt (rt : Runtime) (i : Nat) : Option Bool :=
  match heapGet rt i with
  | some o => match o.primitive with | some (.bool b) => some b | _ => none
  | none => none

def arrValAt (rt : Runtime) (i : Nat) : Option (List Nat) :=
  match heapGet rt i with
  | some o => match o.primitive with | some (.arr xs) => some xs | _ => none
  | none => none

def dictValAt (rt : Runtime) (i : Nat) : Option (List (String × Nat)) :=
  match heapGet rt i with
  | some o => match o.primitive with | some (.dict d) => some d | _ => none
  | none => none

/-- Object::new_of_class followed by registration: allocation appends to the
heap and returns the fresh index. -/
def allocObject (rt : Runtime) (o : Object) : Runtime × Nat :=
  ({ rt with heap := rt.heap ++ [o] }, rt.heap.length)

/-- Runtime::create_object: allocate with the given class and set the
__class__ property to the class object (runtime/mod.rs). -/
def createObject (rt : Runtime) (cls : Nat) : Runtime × Nat :=
  let (rt₁, i) := allocObject rt
    { cls? := some cls, superclass? := none, properties := [], methods := [],
      primitive := none }
  (setPropertyR rt₁ i "__class__" cls, i)

/-- Runtime::is_class (interpret.rs): class-of equals the Class builtin.
The Rust version panics on an object without a class; such objects are never
produced by the bootstrapped interpreter and the none case is mapped to
false here. -/
def isClass (rt : Runtime) (i : Nat) : Bool :=
  match classOf rt i with
  | some c => c == rt.builtins.cClass
  | none => false

/-- Runtime::is_falsy (interpret.rs): reference identity with the interned
false singleton or the interned nil singleton. -/
def isFalsy (rt : Runtime) (i : Nat) : Bool :=
  i == rt.builtins.boolFalse || i == rt.builtins.nilO

def isTruthy (rt : Runtime) (i : Nat) : Bool :=
  !(isFalsy rt i)

/-! ## Method table operations (object.rs) -/

/-- Object::resolve_own_method, depth-indexed.  The Rust recursion
terminates because superclass chains are acyclic by construction; an acyclic
chain visits pairwise distinct heap entries, so any depth of at least
heap.length plus one computes the same answer as the Rust function.  On a
cyclic heap (never constructed by this interpreter) the Rust code diverges
while this returns none. -/
def resolveOwnMethodGo : Nat → Runtime → Nat → String → Option Method
  | 0, _, _, _ => none
  | d + 1, rt, i, name =>
    match heapGet rt i with
    | none => none
    | some o =>
      match lookupAssoc o.methods name with
      | some m => some m
      | none =>
        match o.superclass? with
        | some s => resolveOwnMethodGo d rt s name
        | none => none

def resolveOwnMethod (rt : Runtime) (i : Nat) (name : String) : Option Method :=
  resolveOwnMethodGo (rt.heap.length + 1) rt i name

/-- Object::define_method.  The class field of the duplicate error is the
string Class in every reachable call: the Rust code re-borrows the very
object on which define_method is invoked via try_borrow while it is already
mutably borrowed, so the fallback branch unwrap_or(Class) is always taken. -/
def defineMethodAt (rt : Runtime) (i : Nat) (receiver : MethodReceiver)
    (methodName : String) (params : List Param) (body : MethodBody) :
    Runtime × Except Error Unit :=
  match heapGet rt i with
  | none => (rt, .error .panicked)
  | some o =>
    if (lookupAssoc o.methods methodName).isSome then
      (rt, .error (.duplicateMethodDefinition "Class" methodName))
    else
      (updateObject rt i (fun ob =>
        { ob with methods := ob.methods ++
            [(methodName, { name := methodName, cls := i, params := params,
                            body := body, receiver := receiver })] }),
       .ok ())

/-- Object::get_init_method: resolve init through the chain, or synthesize
the system-body no-op constructor whose Rust closure body is
create_object(class) applied to its receiver argument. -/
def getInitMethod (rt : Runtime) (clsIdx : Nat) : Method :=
  match resolveOwnMethod rt clsIdx "init" with
  | some m => m
  | none =>
    { receiver := .inst, cls := clsIdx, name := "init",
      body := .system .synthesizedInit, params := [] }

/-! ## Scope and stack operations (runtime/mod.rs) -/

def pushStackFrame (rt : Runtime) (frame : StackFrame) : Runtime × Nat :=
  let sid := rt.stackId
  ({ rt with stackId := sid + 1,
             stack := rt.stack ++ [{ frame with id := sid }] }, sid)

/-- Runtime::pop_stack_frame.  The debug assertion comparing frame ids is
compiled out in release builds and holds in every run of this model; the id
argument is kept to mirror the call sites. -/
def popStackFrame (rt : Runtime) (_sid : Nat) : Runtime :=
  { rt with stack := rt.stack.dropLast }

def currentInstance (rt : Runtime) : Option Nat :=
  rt.stack.reverse.findSome? (fun f => f.inst)

def currentClass (rt : Runtime) : Option Nat :=
  rt.stack.reverse.findSome? (fun f => f.cls)

def assignGlobal (rt : Runtime) (name : String) (obj : Nat) : Runtime :=
  match rt.stack with
  | [] => rt
  | f :: rest =>
    { rt with stack := { f with vars := insertAssoc f.vars name obj } :: rest }

/-- Runtime::define_variable: insert into the innermost frame. -/
def defineVariable (rt : Runtime) (name : String) (obj : Nat) : Runtime :=
  match rt.stack.getLast? with
  | none => rt
  | some f =>
    { rt with stack := rt.stack.dropLast ++
        [{ f with vars := insertAssoc f.vars name obj }] }

/-- Index (from the bottom) of the innermost frame whose variable map
already contains the name. -/
def innermostFrameWith (stack : List StackFrame) (name : String) : Option Nat :=
  match stack with
  | [] => none
  | f :: rest =>
    match innermostFrameWith rest name with
    | some i => some (i + 1)
    | none => if (lookupAssoc f.vars name).isSome then some 0 else none

/-- Runtime::assign_variable: overwrite in the innermost frame that already
binds the name, else define in the innermost frame. -/
def assignVariable (rt : Runtime) (name : String) (obj : Nat) : Runtime :=
  match innermostFrameWith rt.stack name with
  | some i =>
    { rt with stack :=
        rt.stack.modify (fun f => { f with vars := insertAssoc f.vars name obj }) i }
  | none => defineVariable rt name obj

/-! ## Value creation (runtime/mod.rs) -/

/-- Runtime::create_string with interning: return the cached object when the
content is already interned (alive, which in this model is always), else
allocate a String object and cache it. -/
def createString (rt : Runtime) (s : String) : Runtime × Nat :=
  match lookupAssoc rt.strings s with
  | some i => (rt, i)
  | none =>
    let (rt₁, i) := createObject rt rt.builtins.cString
    let rt₂ := setPrimitiveR rt₁ i (.str s)
    ({ rt₂ with strings := insertAssoc rt₂.strings s i }, i)

/-- Runtime::create_bool: the two interned singletons, never a fresh
allocation. -/
def createBool (rt : Runtime) (b : Bool) : Runtime × Nat :=
  (rt, if b then rt.builtins.boolTrue else rt.builtins.boolFalse)

def createNumber (rt : Runtime) (n : Int) : Runtime × Nat :=
  let (rt₁, i) := createObject rt rt.builtins.cNumber
  (setPrimitiveR rt₁ i (.num n), i)

def createArray (rt : Runtime) (elements : List Nat) : Runtime × Nat :=
  let (rt₁, i) := createObject rt rt.builtins.cArray
  (setPrimitiveR rt₁ i (.arr elements), i)

def createTuple (rt : Runtime) (items : List Nat) : Runtime × Nat :=
  let (rt₁, i) := createObject rt rt.builtins.cTuple
  (setPrimitiveR rt₁ i (.arr items), i)

def createDictionary (rt : Runtime) (entries : List (String × Nat)) : Runtime × Nat :=
  let (rt₁, i) := createObject rt rt.builtins.cDictionary
  (setPrimitiveR rt₁ i (.dict (entries.foldl (fun acc kv => insertAssoc acc kv.1 kv.2) [])), i)

/-- Runtime::create_class: fresh Class-instance, superclass set, interned
name stored as the __name__ property, and the class registered as a global
variable under its name. -/
def createClass (rt : Runtime) (name : String) (superclass : Option Nat) : Runtime × Nat :=
  let (rt₁, c) := createObject rt rt.builtins.cClass
  let rt₂ := updateObject rt₁ c (fun o => { o with superclass? := superclass })
  let (rt₃, nameObj) := createString rt₂ name
  let rt₄ := setPropertyR rt₃ c "__name__" nameObj
  (assignGlobal rt₄ name c, c)

def createSimpleClass (rt : Runtime) (name : String) : Runtime × Nat :=
  createClass rt name (some rt.builtins.cObject)

/-- Runtime::create_method_object: an instance of the Method builtin class
carrying the owning class as the __receiver__ property and the method name
as __name__.  The Method builtin class is absent from the Builtins struct of
bootstrap.rs although this function reads builtins.Method; see the
spec-modelled part of the bootstrap. -/
def createMethodObject (rt : Runtime) (m : Method) : Runtime × Nat :=
  let (rt₁, i) := createObject rt rt.builtins.cMethod
  let rt₂ := setPropertyR rt₁ i "__receiver__" m.cls
  let (rt₃, nameObj) := createString rt₂ m.name
  (setPropertyR rt₃ i "__name__" nameObj, i)

/-! ## Variable resolution (runtime/mod.rs resolve_variable) -/

inductive ResolveHit where
  | obj (i : Nat)
  | method (m : Method)
  | missing

/-- The frame loop of resolve_variable, walking the stack from the top: a
local variable hit returns immediately; the first frame carrying an instance
also consults that instance's properties; the first frame carrying a class
consults that class's method chain and, on a hit, stops the walk. -/
def resolveVarLoop (rt : Runtime) : List StackFrame → String → Bool → Bool → ResolveHit
  | [], _, _, _ => .missing
  | f :: rest, name, foundInstance, foundClass =>
    match lookupAssoc f.vars name with
    | some v => .obj v
    | none =>
      match (if foundInstance then none else f.inst) with
      | some inst =>
        match getPropertyR rt inst name with
        | some v => .obj v
        | none =>
          match (if foundClass then none else f.cls) with
          | some c =>
            match resolveOwnMethod rt c name with
            | some m => .method m
            | none => resolveVarLoop rt rest name true true
          | none => resolveVarLoop rt rest name true foundClass
      | none =>
        match (if foundClass then none else f.cls) with
        | some c =>
          match resolveOwnMethod rt c name with
          | some m => .method m
          | none => resolveVarLoop rt rest name foundInstance true
        | none => resolveVarLoop rt rest name foundInstance foundClass

/-- Runtime::resolve_variable.  The special name self resolves to the
nearest instance; a class-method hit is wrapped as a fresh bound method
object (hence the returned runtime). -/
def resolveVariable (rt : Runtime) (name : String) : Runtime × Option Nat :=
  if name == "self" then (rt, currentInstance rt)
  else
    match resolveVarLoop rt rt.stack.reverse name false false with
    | .obj i => (rt, some i)
    | .method m =>
      let (rt₁, i) := createMethodObject rt m
      (rt₁, some i)
    | .missing => (rt, none)

/-! ## Operator-to-method tables (runtime/builtin.rs mod op) -/

def methodForAssignmentOp : Operator → Option String
  | .plusEqual => some "__add__"
  | .minusEqual => some "__sub__"
  | .starEqual => some "__mul__"
  | .slashEqual => some "__div__"
  | _ => none

def methodForBinaryOp : Operator → Option String
  | .equalEqual => some "__eq__"
  | .notEqual => some "__neq__"
  | .greater => some "__gt__"
  | .greaterEqual => some "__gte__"
  | .less => some "__lt__"
  | .lessEqual => some "__lte__"
  | .plus => some "__add__"
  | .minus => some "__sub__"
  | .star => some "__mul__"
  | .slash => some "__div__"
  | .logicalNot => some "__not__"
  | _ => none

def methodForUnaryOp : Operator → Option String
  | .minus => some "__neg__"
  | .logicalNot => some "__not__"
  | _ => none

/-! ## System method bodies (bootstrap.rs define_system_methods).

Every body generated by the define_system_methods macro first destructures
the raw argument vector against its fixed parameter count and fails with
ArityMismatch (class name taken from the receiver's class) when the count
differs; runSystem below performs that step, and the per-method body
functions receive the destructured arguments. -/

def createBoolOk (rt : Runtime) (b : Bool) : Runtime × Except Error Nat :=
  let (rt₁, i) := createBool rt b
  (rt₁, .ok i)

def createNumberOk (rt : Runtime) (n : Int) : Runtime × Except Error Nat :=
  let (rt₁, i) := createNumber rt n
  (rt₁, .ok i)

/-- Number __eq__: a non-Number other compares unequal, otherwise the
payloads are compared. -/
def sysNumberEqBody (rt : Runtime) (this other : Nat) : Runtime × Except Error Nat :=
  match classOf rt other with
  | none => (rt, .error .panicked)
  | some oc =>
    if oc != rt.builtins.cNumber then createBoolOk rt false
    else
      match numValAt rt this, numValAt rt other with
      | some a, some b => createBoolOk rt (a == b)
      | _, _ => (rt, .error .panicked)

/-- Number __neq__: a non-Number other compares unequal (true). -/
def sysNumberNeqBody (rt : Runtime) (this other : Nat) : Runtime × Except Error Nat :=
  match classOf rt other with
  | none => (rt, .error .panicked)
  | some oc =>
    if oc != rt.builtins.cNumber then createBoolOk rt true
    else
      match numValAt rt this, numValAt rt other with
      | some a, some b => createBoolOk rt (a != b)
      | _, _ => (rt, .error .panicked)

/-- Number comparison bodies: both payloads are unwrapped without a class
check (a non-Number other is a Rust panic). -/
def sysNumberCmpBody (rt : Runtime) (this other : Nat) (f : Int → Int → Bool) :
    Runtime × Except Error Nat :=
  match numValAt rt this, numValAt rt other with
  | some a, some b => createBoolOk rt (f a b)
  | _, _ => (rt, .error .panicked)

/-- Number arithmetic bodies (add, sub, mul): exact on the integral values
every claim uses. -/
def sysNumberArithBody (rt : Runtime) (this other : Nat) (f : Int → Int → Int) :
    Runtime × Except Error Nat :=
  match numValAt rt this, numValAt rt other with
  | some a, some b => createNumberOk rt (f a b)
  | _, _ => (rt, .error .panicked)

def sysNumberNegBody (rt : Runtime) (this : Nat) : Runtime × Except Error Nat :=
  match numValAt rt this with
  | some a => createNumberOk rt (-a)
  | none => (rt, .error .panicked)

/-- String __eq__: a different class field compares unequal (the interned
false singleton is returned directly), otherwise payload comparison. -/
def sysStringEqBody (rt : Runtime) (this other : Nat) : Runtime × Except Error Nat :=
  let thisCls := (heapGet rt this).bind (fun o => o.cls?)
  let otherCls := (heapGet rt other).bind (fun o => o.cls?)
  if otherCls ≠ thisCls then (rt, .ok rt.builtins.boolFalse)
  else
    match strValAt rt this, strValAt rt other with
    | some a, some b => createBoolOk rt (a == b)
    | _, _ => (rt, .error .panicked)

/-- String __neq__: payloads unwrapped without a class check. -/
def sysStringNeqBody (rt : Runtime) (this other : Nat) : Runtime × Except Error Nat :=
  match strValAt rt this, strValAt rt other with
  | some a, some b => createBoolOk rt (a != b)
  | _, _ => (rt, .error .panicked)

/-- Object __eq__ and __neq__: reference identity. -/
def sysObjectEqBody (rt : Runtime) (this other : Nat) (negate : Bool) :
    Runtime × Except Error Nat :=
  createBoolOk rt (if negate then this != other else this == other)

/-- NilClass init: constructing NilClass directly is illegal. -/
def sysNilInitBody (rt : Runtime) (this : Nat) : Runtime × Except Error Nat :=
  match classOf rt this with
  | none => (rt, .error .panicked)
  | some c =>
    match objName rt c with
    | none => (rt, .error .panicked)
    | some cn => (rt, .error (.illegalConstructorCall cn))

/-- Bool __not__: identity test against the interned false singleton. -/
def sysBoolNotBody (rt : Runtime) (this : Nat) : Runtime × Except Error Nat :=
  if this == rt.builtins.boolFalse then (rt, .ok rt.builtins.boolTrue)
  else (rt, .ok rt.builtins.boolFalse)

/-- Array __index__ (bootstrap.rs): a non-Number index is a TypeMismatch;
an empty array yields nil; a negative index is reduced with rem_euclid by
the length; an index at or past the length yields nil. -/
def sysArrayIndexBody (rt : Runtime) (this index : Nat) : Runtime × Except Error Nat :=
  match classOf rt index with
  | none => (rt, .error .panicked)
  | some ic =>
    if ic != rt.builtins.cNumber then
      match objName rt ic with
      | none => (rt, .error .panicked)
      | some icn => (rt, .error (.typeMismatch "Number" icn))
    else
      match arrValAt rt this with
      | none => (rt, .error .panicked)
      | some elements =>
        if elements.isEmpty then (rt, .ok rt.builtins.nilO)
        else
          match numValAt rt index with
          | none => (rt, .error .panicked)
          | some n =>
            let j : Int := if n < 0 then n.emod (elements.length : Int) else n
            if (elements.length : Int) ≤ j then (rt, .ok rt.builtins.nilO)
            else
              match elements.get? j.toNat with
              | some e => (rt, .ok e)
              | none => (rt, .error .panicked)

/-- Array __add__: a non-Array other is a TypeMismatch; otherwise a fresh
concatenated array. -/
def sysArrayAddBody (rt : Runtime) (this other : Nat) : Runtime × Except Error Nat :=
  match classOf rt other with
  | none => (rt, .error .panicked)
  | some oc =>
    if oc != rt.builtins.cArray then
      match objName rt oc with
      | none => (rt, .error .panicked)
      | some ocn => (rt, .error (.typeMismatch "Array" ocn))
    else
      match arrValAt rt this, arrValAt rt other with
      | some a, some b =>
        let (rt₁, i) := createArray rt (a ++ b)
        (rt₁, .ok i)
      | _, _ => (rt, .error .panicked)

def sysArrayPushBody (rt : Runtime) (this element : Nat) : Runtime × Except Error Nat :=
  match arrValAt rt this with
  | none => (rt, .error .panicked)
  | some xs => (setPrimitiveR rt this (.arr (xs ++ [element])), .ok rt.builtins.nilO)

/-- Array pop: removes and returns the last element, an empty array is an
Index error. -/
def sysArrayPopBody (rt : Runtime) (this : Nat) : Runtime × Except Error Nat :=
  match arrValAt rt this with
  | none => (rt, .error .panicked)
  | some xs =>
    match xs.getLast? with
    | none => (rt, .error (.indexError "pop from empty list"))
    | some last => (setPrimitiveR rt this (.arr xs.dropLast), .ok last)

def sysArrayLenBody (rt : Runtime) (this : Nat) : Runtime × Except Error Nat :=
  match arrValAt rt this with
  | none => (rt, .error .panicked)
  | some xs => createNumberOk rt (xs.length : Int)

def sysDictIndexBody (rt : Runtime) (this key : Nat) : Runtime × Except Error Nat :=
  match classOf rt key with
  | none => (rt, .error .panicked)
  | some kc =>
    if kc != rt.builtins.cString then
      match objName rt kc with
      | none => (rt, .error .panicked)
      | some kcn => (rt, .error (.typeMismatch "String" kcn))
    else
      match strValAt rt key, dictValAt rt this with
      | some ks, some d =>
        match lookupAssoc d ks with
        | some v => (rt, .ok v)
        | none => (rt, .ok rt.builtins.nilO)
      | _, _ => (rt, .error .panicked)

def sysDictSetIndexBody (rt : Runtime) (this key value : Nat) : Runtime × Except Error Nat :=
  match classOf rt key with
  | none => (rt, .error .panicked)
  | some kc =>
    if kc != rt.builtins.cString then
      match objName rt kc with
      | none => (rt, .error .panicked)
      | some kcn => (rt, .error (.typeMismatch "String" kcn))
    else
      match strValAt rt key, dictValAt rt this with
      | some ks, some d =>
        (setPrimitiveR rt this (.dict (insertAssoc d ks value)), .ok rt.builtins.nilO)
      | _, _ => (rt, .error .panicked)

/-- The synthesized no-op init of object.rs get_init_method.  Its Rust body
is a closure whose first value parameter is named class but is bound, at the
call site in call_method, to the receiver (the freshly allocated instance);
the body calls runtime.create_object on that receiver.  Modelled verbatim:
it allocates and returns a second object whose class reference is the
receiver instance, which theorem c2_code_divergence below shows. -/
def sysSynthesizedInitBody (rt : Runtime) (this : Nat) : Runtime × Except Error Nat :=
  let (rt₁, i) := createObject rt this
  (rt₁, .ok i)

/-- Modelled from the spec: the Array iter method of the iterator protocol
(spec section 4.4 ForIn together with the For-in exhaustion property).  The
method is part of the language standard library loaded from the repository
file examples/std.concorde at startup (main.rs runs exec_file on it), which
is not under src; src only carries its caller exec_for_in and the ArrayIter
class-name declaration in builtin.rs.  The model: iter on an Array returns
a fresh ArrayIter instance holding the array in the __array__ property and
a zero cursor in the __i__ property. -/
def sysSpecArrayIterBody (rt : Runtime) (this : Nat) : Runtime × Except Error Nat :=
  let (rt₁, it) := createObject rt rt.builtins.cArrayIter
  let rt₂ := setPropertyR rt₁ it "__array__" this
  let (rt₃, zeroObj) := createNumber rt₂ 0
  let rt₄ := setPropertyR rt₃ it "__i__" zeroObj
  (rt₄, .ok it)

/-- Modelled from the spec: the ArrayIter next method of the iterator
protocol (see sysSpecArrayIterBody).  The model: next returns the element
at the cursor and advances it, or the interned nil singleton once the
cursor reaches the length, which signals exhaustion to exec_for_in. -/
def sysSpecArrayIterNextBody (rt : Runtime) (this : Nat) : Runtime × Except Error Nat :=
  match getPropertyR rt this "__array__", getPropertyR rt this "__i__" with
  | some arrObj, some cursorObj =>
    match arrValAt rt arrObj, numValAt rt cursorObj with
    | some xs, some i =>
      if h : 0 ≤ i ∧ i.toNat < xs.length then
        let (rt₁, next) := createNumber rt (i + 1)
        let rt₂ := setPropertyR rt₁ this "__i__" next
        (rt₂, .ok (xs.get ⟨i.toNat, h.2⟩))
      else (rt, .ok rt.builtins.nilO)
    | _, _ => (rt, .error .panicked)
  | _, _ => (rt, .error .panicked)

/-- Fixed parameter count of each macro-generated system body (the count of
named parameters in bootstrap.rs); the synthesized init closure is not
macro-generated and accepts any argument vector. -/
def sysArity : SystemTag → Option Nat
  | .numberInit => some 0
  | .numberEq => some 1
  | .numberNeq => some 1
  | .numberLt => some 1
  | .numberLte => some 1
  | .numberGt => some 1
  | .numberGte => some 1
  | .numberAdd => some 1
  | .numberSub => some 1
  | .numberMul => some 1
  | .numberNeg => some 0
  | .stringInit => some 0
  | .stringEq => some 1
  | .stringNeq => some 1
  | .objectEq => some 1
  | .objectNeq => some 1
  | .nilInit => some 0
  | .boolNot => some 0
  | .boolInit => some 0
  | .arrayInit => some 0
  | .arrayIndex => some 1
  | .arrayAdd => some 1
  | .arrayPush => some 1
  | .arrayPop => some 0
  | .arrayLen => some 0
  | .dictInit => some 0
  | .dictIndex => some 1
  | .dictSetIndex => some 2
  | .synthesizedInit => none
  | .specArrayIter => some 0
  | .specArrayIterNext => some 0

def runSystemBody (rt : Runtime) (tag : SystemTag) (this : Nat) (args : List Nat) :
    Runtime × Except Error Nat :=
  match tag, args with
  | .numberInit, [] => (setPrimitiveR rt this (.num 0), .ok this)
  | .numberEq, [other] => sysNumberEqBody rt this other
  | .numberNeq, [other] => sysNumberNeqBody rt this other
  | .numberLt, [other] => sysNumberCmpBody rt this other (fun a b => a < b)
  | .numberLte, [other] => sysNumberCmpBody rt this other (fun a b => a ≤ b)
  | .numberGt, [other] => sysNumberCmpBody rt this other (fun a b => b < a)
  | .numberGte, [other] => sysNumberCmpBody rt this other (fun a b => b ≤ a)
  | .numberAdd, [other] => sysNumberArithBody rt this other (fun a b => a + b)
  | .numberSub, [other] => sysNumberArithBody rt this other (fun a b => a - b)
  | .numberMul, [other] => sysNumberArithBody rt this other (fun a b => a * b)
  | .numberNeg, [] => sysNumberNegBody rt this
  | .stringInit, [] => (setPrimitiveR rt this (.str ""), .ok this)
  | .stringEq, [other] => sysStringEqBody rt this other
  | .stringNeq, [other] => sysStringNeqBody rt this other
  | .objectEq, [other] => sysObjectEqBody rt this other false
  | .objectNeq, [other] => sysObjectEqBody rt this other true
  | .nilInit, [] => sysNilInitBody rt this
  | .boolNot, [] => sysBoolNotBody rt this
  | .boolInit, [] => (setPrimitiveR rt this (.bool false), .ok this)
  | .arrayInit, [] => (setPrimitiveR rt this (.arr []), .ok this)
  | .arrayIndex, [index] => sysArrayIndexBody rt this index
  | .arrayAdd, [other] => sysArrayAddBody rt this other
  | .arrayPush, [element] => sysArrayPushBody rt this element
  | .arrayPop, [] => sysArrayPopBody rt this
  | .arrayLen, [] => sysArrayLenBody rt this
  | .dictInit, [] => (setPrimitiveR rt this (.dict []), .ok this)
  | .dictIndex, [key] => sysDictIndexBody rt this key
  | .dictSetIndex, [key, value] => sysDictSetIndexBody rt this key value
  | .synthesizedInit, _ => sysSynthesizedInitBody rt this
  | .specArrayIter, [] => sysSpecArrayIterBody rt this
  | .specArrayIterNext, [] => sysSpecArrayIterNextBody rt this
  | _, _ => (rt, .error .panicked)

/-- Dispatch of a system method body: the macro-generated arity
destructuring (ArityMismatch with the receiver's class name on a length
mismatch) followed by the body; the synthesized init closure takes the raw
vector.  The final fallthrough arm of runSystemBody is unreachable under
this length guard. -/
def runSystem (rt : Runtime) (tag : SystemTag) (this : Nat) (methodName : String)
    (args : List Nat) : Runtime × Except Error Nat :=
  match sysArity tag with
  | none => runSystemBody rt tag this args
  | some expected =>
    if args.length == expected then runSystemBody rt tag this args
    else
      match classOf rt this with
      | none => (rt, .error .panicked)
      | some c =>
        match objName rt c with
        | none => (rt, .error .panicked)
        | some cn => (rt, .error (.arityMismatch cn methodName expected args.length))

/-! ## Static free-variable scan (interpret.rs find_closed_vars family).

Note from the source: the scan collects every bare variable reference leaf;
literals (including array, tuple and dictionary literals), paths, method and
class definitions, use, break and continue contribute nothing, assignments
contribute only their right-hand side, an access or call contributes only
its target expression. -/

mutual

def findClosedVarsInBlock : Block → List String
  | .mk stmts => findClosedVarsInStmts stmts

def findClosedVarsInStmts : List Statement → List String
  | [] => []
  | s :: rest => findClosedVarsInStmt s ++ findClosedVarsInStmts rest

def findClosedVarsInStmt : Statement → List String
  | .forIn _ iterable body =>
    findClosedVarsInExpr iterable ++ findClosedVarsInBlock body
  | .whileLoop condition body =>
    findClosedVarsInExpr condition ++ findClosedVarsInBlock body
  | .expression e => findClosedVarsInExpr e
  | .returnS (some e) => findClosedVarsInExpr e
  | .returnS none => []
  | .assignment _ _ value => findClosedVarsInExpr value
  | .methodDefinition _ _ _ _ => []
  | .classDefinition _ _ => []
  | .useS _ => []
  | .breakS => []
  | .continueS => []

def findClosedVarsInExpr : Expression → List String
  | .index target idx => findClosedVarsInExpr target ++ findClosedVarsInExpr idx
  | .access target _ => findClosedVarsInExpr target
  | .call target _ => findClosedVarsInExpr target
  | .var name => [name]
  | .ifElse condition thenBody elseBody =>
    findClosedVarsInExpr condition ++ findClosedVarsInBlock thenBody ++
      (match elseBody with
       | some b => findClosedVarsInBlock b
       | none => [])
  | .binary _ lhs rhs => findClosedVarsInExpr lhs ++ findClosedVarsInExpr rhs
  | .unary _ rhs => findClosedVarsInExpr rhs
  | .closure _ body => findClosedVarsInBlock body
  | .lit _ => []
  | .path _ => []

end

/-! ## Non-recursive evaluator helpers (interpret.rs) -/

/-- Parameter binding in call_method: positional parameters are zipped with
the arguments (the zip stops at the shorter list, though call sites check
equal lengths first); a vararg parameter in a user body is the Rust todo
panic, signalled by none. -/
def buildVars : List Param → List Nat → Option (List (String × Nat))
  | [], _ => some []
  | _, [] => some []
  | (.positional n) :: ps, a :: rest =>
    match buildVars ps rest with
    | some tail => some ((n, a) :: tail)
    | none => none
  | (.vararg _) :: _, _ :: _ => none

/-- interpret.rs resolve_callable_method: the __call__ method resolved on
the object's class (not on the object itself). -/
def resolveCallableMethod (rt : Runtime) (objIdx : Nat) : Except Error Method :=
  match classOf rt objIdx with
  | none => .error .panicked
  | some c =>
    match resolveOwnMethod rt c "__call__" with
    | some m => .ok m
    | none => .error .objectNotCallable

/-- Object::__debug__ without the raw pointer (identity is the heap index in
this model); used only in the diagnostic target field of
UndefinedProperty. -/
def debugStr (rt : Runtime) (i : Nat) : String :=
  match classOf rt i with
  | some c => (objName rt c).getD "(anonymous)"
  | none => "(anonymous)"

def resolveClassWalk (rt : Runtime) (receiver : Nat) : List String → Except Error Nat
  | [] => .ok receiver
  | member :: rest =>
    match getPropertyR rt receiver member with
    | none => .error (.undefinedProperty (debugStr rt receiver) member)
    | some child =>
      if isClass rt child then resolveClassWalk rt child rest
      else .error (.badPath member)

/-- interpret.rs resolve_class_from_path: the first component resolves as a
variable, every further component must be a property holding a class.  An
empty component list is the Rust split_first unwrap panic (the parser never
produces it). -/
def resolveClassFromPath (rt : Runtime) (components : List String) :
    Runtime × Except Error Nat :=
  match components with
  | [] => (rt, .error .panicked)
  | startName :: rest =>
    let (rt₁, v) := resolveVariable rt startName
    match v with
    | none => (rt₁, .error (.noSuchVariable startName))
    | some receiver => (rt₁, resolveClassWalk rt₁ receiver rest)

/-- interpret.rs exec_method_def: receiver kind is Class when marked or when
the current class is the implicit top-level Main pseudo-class. -/
def execMethodDef (rt : Runtime) (cls : Nat) (isClassMethod : Bool) (name : String)
    (parameters : List String) (body : Block) : Runtime × Except Error Unit :=
  let params := parameters.map Param.positional
  let receiver : MethodReceiver :=
    if isClassMethod || currentClass rt == some rt.builtins.cMain then .cls else .inst
  defineMethodAt rt cls receiver name params (.user body)

def bindEach : Runtime → List String → List Nat → Runtime
  | rt, n :: ns, v :: vs => bindEach (defineVariable rt n v) ns vs
  | rt, _, _ => rt

/-- Loop-variable binding in exec_for_in: a single name binds the item;
several names destructure a Tuple item of matching length; other shapes are
BadIterator errors (raised through an early return that skips the frame
pop, faithfully to the source). -/
def bindForIn (rt : Runtime) (names : List String) (item : Nat) :
    Runtime × Option Error :=
  if names.length == 1 then
    match names with
    | [n] => (defineVariable rt n item, none)
    | _ => (rt, some .panicked)
  else if classOf rt item == some rt.builtins.cTuple then
    match arrValAt rt item with
    | none => (rt, some .panicked)
    | some items =>
      if items.length != names.length then
        (rt, some (.badIterator "iterator binding arity mismatch"))
      else (bindEach rt names items, none)
  else (rt, some (.badIterator "iterator returned unbindable item"))

/-- The open-class search of eval_call_expr: all open_classes lists of the
stack are flattened bottom-to-top and the flattened sequence reversed, then
the first class resolving the name wins. -/
def openClassLookup (rt : Runtime) (methodName : String) : Option (Nat × Method) :=
  ((rt.stack.map (fun f => f.openClasses)).flatten.reverse).findSome?
    (fun cls => (resolveOwnMethod rt cls methodName).map (fun m => (cls, m)))

/-- Statement::Use support: push the class onto the innermost frame's
open_classes. -/
def pushOpenClass (rt : Runtime) (cls : Nat) : Runtime :=
  match rt.stack.getLast? with
  | none => rt
  | some f =>
    { rt with stack := rt.stack.dropLast ++
        [{ f with openClasses := f.openClasses ++ [cls] }] }

/-- The NoSuchMethod value of call_instance_method; the class-name unwrap in
its format string is a panic when the class is unnamed. -/
def noSuchIM (rt : Runtime) (cls : Nat) (methodName : String) : Error :=
  match objName rt cls with
  | none => .panicked
  | some cn => .noSuchMethod (cn ++ "." ++ methodName)

def captureClosedVars : Runtime → Nat → List String → Runtime
  | rt, _, [] => rt
  | rt, obj, name :: rest =>
    let (rt₁, v) := resolveVariable rt name
    match v with
    | some varObj => captureClosedVars (setPropertyR rt₁ obj name varObj) obj rest
    | none => captureClosedVars rt₁ obj rest

def createStringList : Runtime → List String → Runtime × List Nat
  | rt, [] => (rt, [])
  | rt, s :: rest =>
    let (rt₁, i) := createString rt s
    let (rt₂, is) := createStringList rt₁ rest
    (rt₂, i :: is)

/-! ## The evaluator (interpret.rs), tied by fuel.

Every interpreter entry point is a field of Ev.  The function interp below
builds the fuel-indexed tower: each nested interpreter call (statement in a
block, operand in an expression, call in a call, loop iteration) goes
through the previous fuel level, and evBottom answers outOfFuel.  Rust
instead recurses natively and can diverge. -/

structure Ev where
  exec : Runtime → Statement → Runtime × Except Error Unit
  eval : Runtime → Expression → Runtime × Except Error Nat
  evalBlock : Runtime → Block → Runtime × Except Error Nat
  evalLiteral : Runtime → Literal → Runtime × Except Error Nat
  evalCallExpr : Runtime → Expression → List Expression → Runtime × Except Error Nat
  evalAccess : Runtime → Expression → Expression → Runtime × Except Error Nat
  execAssignment : Runtime → LValue → Operator → Expression → Runtime × Except Error Unit
  execForIn : Runtime → List String → Expression → Block → Runtime × Except Error Unit
  forInLoop : Runtime → Nat → List String → Nat → Method → Block → Runtime × Except Error Unit
  whileLoop : Runtime → Nat → Expression → Block → Runtime × Except Error Unit
  callMethod : Runtime → Nat → Method → List Nat → Runtime × Except Error Nat
  callInstanceMethod : Runtime → Nat → String → List Nat → Runtime × Except Error Nat
  callClosure : Runtime → Nat → List Nat → Runtime × Except Error Nat

def evBottom : Ev where
  exec := fun rt _ => (rt, .error .outOfFuel)
  eval := fun rt _ => (rt, .error .outOfFuel)
  evalBlock := fun rt _ => (rt, .error .outOfFuel)
  evalLiteral := fun rt _ => (rt, .error .outOfFuel)
  evalCallExpr := fun rt _ _ => (rt, .error .outOfFuel)
  evalAccess := fun rt _ _ => (rt, .error .outOfFuel)
  execAssignment := fun rt _ _ _ => (rt, .error .outOfFuel)
  execForIn := fun rt _ _ _ => (rt, .error .outOfFuel)
  forInLoop := fun rt _ _ _ _ _ => (rt, .error .outOfFuel)
  whileLoop := fun rt _ _ _ => (rt, .error .outOfFuel)
  callMethod := fun rt _ _ _ => (rt, .error .outOfFuel)
  callInstanceMethod := fun rt _ _ _ => (rt, .error .outOfFuel)
  callClosure := fun rt _ _ => (rt, .error .outOfFuel)

def evalExprListWith (evalFn : Runtime → Expression → Runtime × Except Error Nat) :
    Runtime → List Expression → Runtime × Except Error (List Nat)
  | rt, [] => (rt, .ok [])
  | rt, e :: es =>
    match evalFn rt e with
    | (rt₁, .error err) => (rt₁, .error err)
    | (rt₁, .ok v) =>
      match evalExprListWith evalFn rt₁ es with
      | (rt₂, .error err) => (rt₂, .error err)
      | (rt₂, .ok vs) => (rt₂, .ok (v :: vs))

def evalDictWith (evalFn : Runtime → Expression → Runtime × Except Error Nat) :
    Runtime → List (String × Expression) → Runtime × Except Error (List (String × Nat))
  | rt, [] => (rt, .ok [])
  | rt, (k, e) :: es =>
    match evalFn rt e with
    | (rt₁, .error err) => (rt₁, .error err)
    | (rt₁, .ok v) =>
      match evalDictWith evalFn rt₁ es with
      | (rt₂, .error err) => (rt₂, .error err)
      | (rt₂, .ok vs) => (rt₂, .ok ((k, v) :: vs))

/-- eval_block: the value of the block is the value of a final expression
statement; the initial nil retval is captured before the loop. -/
def evalBlockGo (prev : Ev) (nilIdx : Nat) : Runtime → List Statement → Runtime × Except Error Nat
  | rt, [] => (rt, .ok nilIdx)
  | rt, [Statement.expression e] => prev.eval rt e
  | rt, [s] =>
    match prev.exec rt s with
    | (rt₁, .ok _) => (rt₁, .ok nilIdx)
    | (rt₁, .error e) => (rt₁, .error e)
  | rt, s :: rest =>
    match prev.exec rt s with
    | (rt₁, .ok _) => evalBlockGo prev nilIdx rt₁ rest
    | (rt₁, .error e) => (rt₁, .error e)

/-- Sequential statement execution with fail-fast propagation (exec_program
and the try_for_each over a class body). -/
def execStmtsWith (prev : Ev) : Runtime → List Statement → Runtime × Except Error Unit
  | rt, [] => (rt, .ok ())
  | rt, s :: rest =>
    match prev.exec rt s with
    | (rt₁, .ok _) => execStmtsWith prev rt₁ rest
    | (rt₁, .error e) => (rt₁, .error e)

/-- The tail of eval_call_expr shared by all resolution branches: evaluate
the argument expressions left to right, then call. -/
def finishCall (prev : Ev) (rt : Runtime) (receiver : Nat) (method : Method)
    (arguments : List Expression) : Runtime × Except Error Nat :=
  match evalExprListWith prev.eval rt arguments with
  | (rt₁, .error e) => (rt₁, .error e)
  | (rt₁, .ok args) => prev.callMethod rt₁ receiver method args

/-- One fuel level of the evaluator: each field mirrors the corresponding
function of interpret.rs; recursive calls go through prev. -/
def evStep (prev : Ev) : Ev where
  exec := fun rt stmt =>
    match stmt with
    | .expression e =>
      match prev.eval rt e with
      | (rt₁, .ok _) => (rt₁, .ok ())
      | (rt₁, .error err) => (rt₁, .error err)
    | .methodDefinition isCm name params body =>
      match currentClass rt with
      | none => (rt, .error .panicked)
      | some cls => execMethodDef rt cls isCm name params body
    | .assignment target op value => prev.execAssignment rt target op value
    | .classDefinition name body =>
      let (rt₁, v) := resolveVariable rt name
      let found :=
        match v with
        | some o => if isClass rt₁ o then (rt₁, o) else createSimpleClass rt₁ name
        | none => createSimpleClass rt₁ name
      let rt₂ := found.1
      let cls := found.2
      let (rt₃, sid) := pushStackFrame rt₂ { cls := some cls }
      match execStmtsWith prev rt₃ body.statements with
      | (rt₄, .error e) => (rt₄, .error e)
      | (rt₄, .ok _) => (popStackFrame rt₄ sid, .ok ())
    | .forIn binding iterable body => prev.execForIn rt binding iterable body
    | .whileLoop condition body =>
      let (rt₁, sid) := pushStackFrame rt {}
      prev.whileLoop rt₁ sid condition body
    | .breakS => (rt, .error .controlFlowBreak)
    | .continueS => (rt, .error .controlFlowContinue)
    | .useS pathComponents =>
      match resolveClassFromPath rt pathComponents with
      | (rt₁, .error e) => (rt₁, .error e)
      | (rt₁, .ok cls) => (pushOpenClass rt₁ cls, .ok ())
    | .returnS retval =>
      match retval with
      | none => (rt, .error (.returnFromMethod none))
      | some e =>
        match prev.eval rt e with
        | (rt₁, .ok v) => (rt₁, .error (.returnFromMethod (some v)))
        | (rt₁, .error err) => (rt₁, .error err)
  eval := fun rt expr =>
    match expr with
    | .var name =>
      let (rt₁, v) := resolveVariable rt name
      match v with
      | some i => (rt₁, .ok i)
      | none => (rt₁, .error (.noSuchVariable name))
    | .call target arguments => prev.evalCallExpr rt target arguments
    | .lit l => prev.evalLiteral rt l
    | .access target member => prev.evalAccess rt target member
    | .ifElse condition thenBody elseBody =>
      match prev.eval rt condition with
      | (rt₁, .error e) => (rt₁, .error e)
      | (rt₁, .ok c) =>
        if isFalsy rt₁ c then
          match elseBody with
          | some b => prev.evalBlock rt₁ b
          | none => (rt₁, .ok rt₁.builtins.nilO)
        else prev.evalBlock rt₁ thenBody
    | .binary op lhsE rhsE =>
      match prev.eval rt lhsE with
      | (rt₁, .error e) => (rt₁, .error e)
      | (rt₁, .ok lhs) =>
        match op with
        | .logicalOr =>
          if isTruthy rt₁ lhs then (rt₁, .ok lhs) else prev.eval rt₁ rhsE
        | .logicalAnd =>
          if isFalsy rt₁ lhs then (rt₁, .ok lhs) else prev.eval rt₁ rhsE
        | _ =>
          match prev.eval rt₁ rhsE with
          | (rt₂, .error e) => (rt₂, .error e)
          | (rt₂, .ok rhs) =>
            match methodForBinaryOp op with
            | none => (rt₂, .error .panicked)
            | some mname => prev.callInstanceMethod rt₂ lhs mname [rhs]
    | .index target idxE =>
      match prev.eval rt target with
      | (rt₁, .error e) => (rt₁, .error e)
      | (rt₁, .ok tgt) =>
        match prev.eval rt₁ idxE with
        | (rt₂, .error e) => (rt₂, .error e)
        | (rt₂, .ok idx) => prev.callInstanceMethod rt₂ tgt "__index__" [idx]
    | .unary op rhsE =>
      match prev.eval rt rhsE with
      | (rt₁, .error e) => (rt₁, .error e)
      | (rt₁, .ok rhs) =>
        match methodForUnaryOp op with
        | none => (rt₁, .error .panicked)
        | some mname => prev.callInstanceMethod rt₁ rhs mname []
    | .path components => resolveClassFromPath rt components
    | .closure binding body =>
      let (rt₁, obj) := createObject rt rt.builtins.cClosure
      let (rt₂, bindingVars) := createStringList rt₁ binding
      let params := binding.map Param.positional
      let (rt₃, bindingTuple) := createTuple rt₂ bindingVars
      let closedVars := findClosedVarsInBlock body
      let rt₄ := captureClosedVars rt₃ obj closedVars
      let rt₅ := setPropertyR rt₄ obj "__binding__" bindingTuple
      match defineMethodAt rt₅ obj .inst "__call__" params (.user body) with
      | (rt₆, .error e) => (rt₆, .error e)
      | (rt₆, .ok _) => (rt₆, .ok obj)
  evalBlock := fun rt b => evalBlockGo prev rt.builtins.nilO rt b.statements
  evalLiteral := fun rt l =>
    match l with
    | .stringLit s =>
      let (rt₁, i) := createString rt s
      (rt₁, .ok i)
    | .number n =>
      let (rt₁, i) := createNumber rt n
      (rt₁, .ok i)
    | .boolean b =>
      let (rt₁, i) := createBool rt b
      (rt₁, .ok i)
    | .array elements =>
      match evalExprListWith prev.eval rt elements with
      | (rt₁, .error e) => (rt₁, .error e)
      | (rt₁, .ok vs) =>
        let (rt₂, i) := createArray rt₁ vs
        (rt₂, .ok i)
    | .tuple items =>
      match evalExprListWith prev.eval rt items with
      | (rt₁, .error e) => (rt₁, .error e)
      | (rt₁, .ok vs) =>
        let (rt₂, i) := createTuple rt₁ vs
        (rt₂, .ok i)
    | .nilLit => (rt, .ok rt.builtins.nilO)
    | .dictionary entries =>
      match evalDictWith prev.eval rt entries with
      | (rt₁, .error e) => (rt₁, .error e)
      | (rt₁, .ok es) =>
        let (rt₂, i) := createDictionary rt₁ es
        (rt₂, .ok i)
  evalCallExpr := fun rt target arguments =>
    match target with
    | .var methodName =>
      let (rt₁, v) := resolveVariable rt methodName
      match v with
      | some varObj =>
        if isClass rt₁ varObj then
          let (rt₂, receiver) := createObject rt₁ varObj
          finishCall prev rt₂ receiver (getInitMethod rt₂ varObj) arguments
        else
          match resolveCallableMethod rt₁ varObj with
          | .error e => (rt₁, .error e)
          | .ok method => finishCall prev rt₁ varObj method arguments
      | none =>
        match currentInstance rt₁ with
        | some recv =>
          match classOf rt₁ recv with
          | none => (rt₁, .error .panicked)
          | some c =>
            match resolveOwnMethod rt₁ c methodName with
            | some m => finishCall prev rt₁ recv m arguments
            | none =>
              match openClassLookup rt₁ methodName with
              | some (cls, m) => finishCall prev rt₁ cls m arguments
              | none => (rt₁, .error (.noSuchMethod methodName))
        | none =>
          match openClassLookup rt₁ methodName with
          | some (cls, m) => finishCall prev rt₁ cls m arguments
          | none => (rt₁, .error (.noSuchMethod methodName))
    | .path components =>
      match components.getLast? with
      | none => (rt, .error .panicked)
      | some methodName =>
        match resolveClassFromPath rt components.dropLast with
        | (rt₁, .error e) => (rt₁, .error e)
        | (rt₁, .ok classFromPath) =>
          match (match getPropertyR rt₁ classFromPath methodName with
                 | some p => if isClass rt₁ p then some p else none
                 | none => none) with
          | some classProp =>
            let (rt₂, receiver) := createObject rt₁ classProp
            finishCall prev rt₂ receiver (getInitMethod rt₂ classProp) arguments
          | none =>
            match resolveOwnMethod rt₁ classFromPath methodName with
            | some m => finishCall prev rt₁ classFromPath m arguments
            | none =>
              (rt₁, .error (.noSuchMethod
                (((objName rt₁ classFromPath).getD "(anonymous)") ++ "::" ++ methodName)))
    | _ =>
      match prev.eval rt target with
      | (rt₁, .error e) => (rt₁, .error e)
      | (rt₁, .ok callable) =>
        match resolveCallableMethod rt₁ callable with
        | .error e => (rt₁, .error e)
        | .ok method => finishCall prev rt₁ callable method arguments
  evalAccess := fun rt targetE memberE =>
    match prev.eval rt targetE with
    | (rt₁, .error e) => (rt₁, .error e)
    | (rt₁, .ok tgt) =>
      match memberE with
      | .var name =>
        match getPropertyR rt₁ tgt name with
        | some v => (rt₁, .ok v)
        | none => (rt₁, .error (.undefinedProperty (debugStr rt₁ tgt) name))
      | .call ctarget cargs =>
        match evalExprListWith prev.eval rt₁ cargs with
        | (rt₂, .error e) => (rt₂, .error e)
        | (rt₂, .ok args) =>
          match ctarget with
          | .var mname => prev.callInstanceMethod rt₂ tgt mname args
          | _ => (rt₂, .error .notCallable)
      | _ => (rt₁, .error .panicked)
  execAssignment := fun rt target op value =>
    let (rt₁, rhs) := prev.eval rt value
    let assignmentOp := methodForAssignmentOp op
    match target with
    | .lvVar name =>
      match assignmentOp with
      | none =>
        match rhs with
        | .error e => (rt₁, .error e)
        | .ok v => (assignVariable rt₁ name v, .ok ())
      | some mname =>
        let (rt₂, lhsOpt) := resolveVariable rt₁ name
        match lhsOpt with
        | none => (rt₂, .error (.noSuchVariable name))
        | some lhs =>
          match rhs with
          | .error e => (rt₂, .error e)
          | .ok rv =>
            match prev.callInstanceMethod rt₂ lhs mname [rv] with
            | (rt₃, .error e) => (rt₃, .error e)
            | (rt₃, .ok v2) => (assignVariable rt₃ name v2, .ok ())
    | .lvAccess targetE memberE =>
      match prev.eval rt₁ targetE with
      | (rt₂, .error e) => (rt₂, .error e)
      | (rt₂, .ok tgt) =>
        match memberE with
        | .var memberName =>
          match assignmentOp with
          | none =>
            match rhs with
            | .error e => (rt₂, .error e)
            | .ok v => (setPropertyR rt₂ tgt memberName v, .ok ())
          | some mname =>
            match getPropertyR rt₂ tgt memberName with
            | none => (rt₂, .error (.noSuchProperty memberName))
            | some lhs =>
              match rhs with
              | .error e => (rt₂, .error e)
              | .ok rv =>
                match prev.callInstanceMethod rt₂ lhs mname [rv] with
                | (rt₃, .error e) => (rt₃, .error e)
                | (rt₃, .ok v2) => (setPropertyR rt₃ tgt memberName v2, .ok ())
        | _ => (rt₂, .error .illegalAssignmentTarget)
    | .lvIndex targetE indexE =>
      match prev.eval rt₁ targetE with
      | (rt₂, .error e) => (rt₂, .error e)
      | (rt₂, .ok tgt) =>
        match prev.eval rt₂ indexE with
        | (rt₃, .error e) => (rt₃, .error e)
        | (rt₃, .ok idx) =>
          match assignmentOp with
          | none =>
            match rhs with
            | .error e => (rt₃, .error e)
            | .ok v =>
              match prev.callInstanceMethod rt₃ tgt "__set_index__" [idx, v] with
              | (rt₄, .error e) => (rt₄, .error e)
              | (rt₄, .ok _) => (rt₄, .ok ())
          | some mname =>
            match prev.callInstanceMethod rt₃ tgt "__index__" [idx] with
            | (rt₄, .error e) => (rt₄, .error e)
            | (rt₄, .ok lhs) =>
              match rhs with
              | .error e => (rt₄, .error e)
              | .ok rv =>
                match prev.callInstanceMethod rt₄ lhs mname [rv] with
                | (rt₅, .error e) => (rt₅, .error e)
                | (rt₅, .ok v2) =>
                  match prev.callInstanceMethod rt₅ tgt "__set_index__" [idx, v2] with
                  | (rt₆, .error e) => (rt₆, .error e)
                  | (rt₆, .ok _) => (rt₆, .ok ())
  execForIn := fun rt binding iterable body =>
    match prev.eval rt iterable with
    | (rt₁, .error e) => (rt₁, .error e)
    | (rt₁, .ok iterableObj) =>
      match classOf rt₁ iterableObj with
      | none => (rt₁, .error .panicked)
      | some icls =>
        match resolveOwnMethod rt₁ icls "iter" with
        | none => (rt₁, .error (.badIterator "iterable has no .iter() method"))
        | some iterMethod =>
          match prev.callMethod rt₁ iterableObj iterMethod [] with
          | (rt₂, .error e) => (rt₂, .error e)
          | (rt₂, .ok iterator) =>
            match classOf rt₂ iterator with
            | none => (rt₂, .error .panicked)
            | some itCls =>
              match resolveOwnMethod rt₂ itCls "next" with
              | none => (rt₂, .error (.badIterator "iterator has no .next() method"))
              | some nextMethod =>
                let (rt₃, sid) := pushStackFrame rt₂ {}
                prev.forInLoop rt₃ sid binding iterator nextMethod body
  forInLoop := fun rt sid names iterator nextMethod body =>
    match prev.callMethod rt iterator nextMethod [] with
    | (rt₁, .error e) => (popStackFrame rt₁ sid, .error e)
    | (rt₁, .ok item) =>
      if item == rt₁.builtins.nilO then (popStackFrame rt₁ sid, .ok ())
      else
        match bindForIn rt₁ names item with
        | (rt₂, some err) => (rt₂, .error err)
        | (rt₂, none) =>
          match prev.evalBlock rt₂ body with
          | (rt₃, .ok _) => prev.forInLoop rt₃ sid names iterator nextMethod body
          | (rt₃, .error .controlFlowBreak) => (popStackFrame rt₃ sid, .ok ())
          | (rt₃, .error .controlFlowContinue) =>
            prev.forInLoop rt₃ sid names iterator nextMethod body
          | (rt₃, .error e) => (popStackFrame rt₃ sid, .error e)
  whileLoop := fun rt sid condition body =>
    match prev.eval rt condition with
    | (rt₁, .error e) => (rt₁, .error e)
    | (rt₁, .ok c) =>
      if isFalsy rt₁ c then (popStackFrame rt₁ sid, .ok ())
      else
        match prev.evalBlock rt₁ body with
        | (rt₂, .ok _) => prev.whileLoop rt₂ sid condition body
        | (rt₂, .error .controlFlowBreak) => (popStackFrame rt₂ sid, .ok ())
        | (rt₂, .error .controlFlowContinue) => prev.whileLoop rt₂ sid condition body
        | (rt₂, .error e) => (popStackFrame rt₂ sid, .error e)
  callMethod := fun rt receiver method args =>
    match method.body with
    | .user b =>
      if args.length != method.params.length then
        match objName rt method.cls with
        | none => (rt, .error .panicked)
        | some cn =>
          (rt, .error (.arityMismatch cn method.name method.params.length args.length))
      else
        match buildVars method.params args with
        | none => (rt, .error .panicked)
        | some vars =>
          let (rt₁, sid) := pushStackFrame rt { inst := some receiver, vars := vars }
          let res := prev.evalBlock rt₁ b
          let rt₃ := popStackFrame res.1 sid
          if method.name == "init" then
            match res.2 with
            | .ok _ => (rt₃, .ok receiver)
            | .error (.returnFromMethod none) => (rt₃, .ok receiver)
            | .error (.returnFromMethod (some _)) => (rt₃, .error .returnFromInitializer)
            | .error e => (rt₃, .error e)
          else
            match res.2 with
            | .error (.returnFromMethod retval) =>
              (rt₃, .ok (retval.getD rt₃.builtins.nilO))
            | other => (rt₃, other)
    | .system tag => runSystem rt tag receiver method.name args
  callInstanceMethod := fun rt receiver methodName args =>
    match classOf rt receiver with
    | none => (rt, .error .panicked)
    | some cls =>
      match resolveOwnMethod rt cls methodName with
      | none => (rt, .error (noSuchIM rt cls methodName))
      | some m =>
        if m.receiver != MethodReceiver.inst then (rt, .error (noSuchIM rt cls methodName))
        else prev.callMethod rt receiver m args
  callClosure := fun rt closureObj args =>
    match resolveOwnMethod rt closureObj "__call__" with
    | none => (rt, .error .panicked)
    | some m => prev.callMethod rt closureObj m args

def interp : Nat → Ev
  | 0 => evBottom
  | n + 1 => evStep (interp n)

/-! ## Fuel-indexed entry points -/

def execF (fuel : Nat) : Runtime → Statement → Runtime × Except Error Unit :=
  (interp fuel).exec

def evalF (fuel : Nat) : Runtime → Expression → Runtime × Except Error Nat :=
  (interp fuel).eval

def evalBlockF (fuel : Nat) : Runtime → Block → Runtime × Except Error Nat :=
  (interp fuel).evalBlock

def callMethodF (fuel : Nat) : Runtime → Nat → Method → List Nat → Runtime × Except Error Nat :=
  (interp fuel).callMethod

def callInstanceMethodF (fuel : Nat) :
    Runtime → Nat → String → List Nat → Runtime × Except Error Nat :=
  (interp fuel).callInstanceMethod

def callClosureF (fuel : Nat) : Runtime → Nat → List Nat → Runtime × Except Error Nat :=
  (interp fuel).callClosure

/-- Runtime::exec_program: execute the top-level statements in order with
fail-fast propagation; each statement gets the full fuel. -/
def execProgramF (fuel : Nat) (rt : Runtime) (stmts : List Statement) :
    Runtime × Except Error Unit :=
  execStmtsWith (interp fuel) rt stmts

/-! ## Bootstrap (bootstrap.rs) -/

/-- Helper for installing a stdlib system method; the Rust call sites unwrap
the define_method result, which cannot fail because each bootstrapped class
receives pairwise distinct method names exactly once. -/
def defineSys (rt : Runtime) (cls : Nat) (name : String) (params : List String)
    (tag : SystemTag) : Runtime :=
  (defineMethodAt rt cls .inst name (params.map Param.positional) (.system tag)).1

/-- bootstrap_classes_and_objects, in source order: the root frame; the
Class object whose class is itself (the deliberate cycle); String (needed
before any string allocation); the __name__ properties of Class and String;
Object; the String superclass patch; NilClass and the nil singleton; Array;
Tuple; Dictionary; DictionaryIter; Bool and the two interned Boolean
singletons; Number; Main (installed as class and open class of the root
frame); IO. -/
def bootstrapClassesAndObjects : Runtime :=
  let rt : Runtime := {}
  let rt := { rt with stack := [{}] }
  let p := allocObject rt
    { cls? := none, superclass? := none, properties := [], methods := [],
      primitive := none }
  let rt := p.1
  let clsClass := p.2
  let rt := updateObject rt clsClass (fun o => { o with cls? := some clsClass })
  let rt := { rt with builtins := { rt.builtins with cClass := clsClass } }
  let rt := assignGlobal rt "Class" clsClass
  let p := createObject rt clsClass
  let rt := { p.1 with builtins := { p.1.builtins with cString := p.2 } }
  let clsString := p.2
  let rt := assignGlobal rt "String" clsString
  let p := createString rt "Class"
  let rt := setPropertyR p.1 clsClass "__name__" p.2
  let p := createString rt "String"
  let rt := setPropertyR p.1 clsString "__name__" p.2
  let p := createClass rt "Object" none
  let rt := { p.1 with builtins := { p.1.builtins with cObject := p.2 } }
  let rt := assignGlobal rt "Object" p.2
  let rt := updateObject rt clsString
    (fun o => { o with superclass? := some rt.builtins.cObject })
  let p := createSimpleClass rt "NilClass"
  let rt := { p.1 with builtins := { p.1.builtins with cNilClass := p.2 } }
  let p := createObject rt rt.builtins.cNilClass
  let rt := { p.1 with builtins := { p.1.builtins with nilO := p.2 } }
  let p := createSimpleClass rt "Array"
  let rt := { p.1 with builtins := { p.1.builtins with cArray := p.2 } }
  let p := createSimpleClass rt "Tuple"
  let rt := { p.1 with builtins := { p.1.builtins with cTuple := p.2 } }
  let p := createSimpleClass rt "Dictionary"
  let rt := { p.1 with builtins := { p.1.builtins with cDictionary := p.2 } }
  let p := createSimpleClass rt "DictionaryIter"
  let rt := { p.1 with builtins := { p.1.builtins with cDictionaryIter := p.2 } }
  let p := createSimpleClass rt "Bool"
  let rt := { p.1 with builtins := { p.1.builtins with cBool := p.2 } }
  let p := createObject rt rt.builtins.cBool
  let rt := setPrimitiveR p.1 p.2 (.bool true)
  let rt := { rt with builtins := { rt.builtins with boolTrue := p.2 } }
  let p := createObject rt rt.builtins.cBool
  let rt := setPrimitiveR p.1 p.2 (.bool false)
  let rt := { rt with builtins := { rt.builtins with boolFalse := p.2 } }
  let p := createSimpleClass rt "Number"
  let rt := { p.1 with builtins := { p.1.builtins with cNumber := p.2 } }
  let p := createSimpleClass rt "Main"
  let rt := { p.1 with builtins := { p.1.builtins with cMain := p.2 } }
  let rt :=
    match rt.stack with
    | f :: rest =>
      let f₁ : StackFrame :=
        { f with cls := some rt.builtins.cMain,
                 openClasses := f.openClasses ++ [rt.builtins.cMain] }
      { rt with stack := f₁ :: rest }
    | [] => rt
  let p := createSimpleClass rt "IO"
  { p.1 with builtins := { p.1.builtins with ioClass := p.2 } }

/-- Modelled from the spec: the classes Closure (spec section 4.4
Closures: a dedicated Closure class whose instances represent closures; the
field is read by interpret.rs as builtins.Closure but missing from the
define_builtins list of bootstrap.rs), Method (spec section 4.3: a bound
zero-receiver method object; read by mod.rs as builtins.Method, also
missing), and ArrayIter (declared as a class name in builtin.rs, created
nowhere under src; carrier of the spec-modelled iterator protocol). -/
def bootstrapSpecModelled (rt : Runtime) : Runtime :=
  let p := createSimpleClass rt "Closure"
  let rt := { p.1 with builtins := { p.1.builtins with cClosure := p.2 } }
  let p := createSimpleClass rt "Method"
  let rt := { p.1 with builtins := { p.1.builtins with cMethod := p.2 } }
  let p := createSimpleClass rt "ArrayIter"
  { p.1 with builtins := { p.1.builtins with cArrayIter := p.2 } }

/-- bootstrap_stdlib, in source order; the bodies omitted from the model
(float-only arithmetic, string formatting, IO printing: Number __div__,
round, ceil, floor, pow, to_s; String trim, __add__, to_s; Object
__debug__, to_s; NilClass to_s; Bool to_s; Array to_s; Class to_s;
Dictionary to_s; Tuple to_s; the three IO vararg printers) are outside
every claim. -/
def bootstrapStdlib (rt : Runtime) : Runtime :=
  let b := rt.builtins
  let rt := defineSys rt b.cNumber "init" [] .numberInit
  let rt := defineSys rt b.cNumber "__eq__" ["other"] .numberEq
  let rt := defineSys rt b.cNumber "__neq__" ["other"] .numberNeq
  let rt := defineSys rt b.cNumber "__lt__" ["other"] .numberLt
  let rt := defineSys rt b.cNumber "__lte__" ["other"] .numberLte
  let rt := defineSys rt b.cNumber "__gt__" ["other"] .numberGt
  let rt := defineSys rt b.cNumber "__gte__" ["other"] .numberGte
  let rt := defineSys rt b.cNumber "__add__" ["other"] .numberAdd
  let rt := defineSys rt b.cNumber "__sub__" ["other"] .numberSub
  let rt := defineSys rt b.cNumber "__mul__" ["other"] .numberMul
  let rt := defineSys rt b.cNumber "__neg__" [] .numberNeg
  let rt := defineSys rt b.cString "init" [] .stringInit
  let rt := defineSys rt b.cString "__eq__" ["other"] .stringEq
  let rt := defineSys rt b.cString "__neq__" ["other"] .stringNeq
  let rt := defineSys rt b.cObject "__eq__" ["other"] .objectEq
  let rt := defineSys rt b.cObject "__neq__" ["other"] .objectNeq
  let rt := defineSys rt b.cNilClass "init" [] .nilInit
  let rt := defineSys rt b.cBool "__not__" [] .boolNot
  let rt := defineSys rt b.cBool "init" [] .boolInit
  let rt := defineSys rt b.cArray "__index__" ["index"] .arrayIndex
  let rt := defineSys rt b.cArray "__add__" ["other"] .arrayAdd
  let rt := defineSys rt b.cArray "init" [] .arrayInit
  let rt := defineSys rt b.cArray "push" ["element"] .arrayPush
  let rt := defineSys rt b.cArray "pop" [] .arrayPop
  let rt := defineSys rt b.cArray "len" [] .arrayLen
  let rt := defineSys rt b.cDictionary "init" [] .dictInit
  let rt := defineSys rt b.cDictionary "__index__" ["key"] .dictIndex
  let rt := defineSys rt b.cDictionary "__set_index__" ["key", "value"] .dictSetIndex
  rt

/-- Modelled from the spec: installation of the iterator protocol for
arrays (see sysSpecArrayIterBody and sysSpecArrayIterNextBody).  In the
repository this is done by the standard library file examples/std.concorde
that main.rs loads before the user program; that file is not under src. -/
def bootstrapSpecIterators (rt : Runtime) : Runtime :=
  let rt := defineSys rt rt.builtins.cArray "iter" [] .specArrayIter
  defineSys rt rt.builtins.cArrayIter "next" [] .specArrayIterNext

/-- Runtime::new: bootstrap.  The first two stages mirror bootstrap.rs; the
last two carry the spec-modelled additions documented above. -/
def Runtime.new : Runtime :=
  bootstrapSpecIterators (bootstrapStdlib (bootstrapSpecModelled bootstrapClassesAndObjects))

/-! ## Observation helpers for the theorems -/

/-- The innermost visible binding of a name in the frame stack (observation
only; the interpreter itself uses resolveVariable). -/
def topVar (rt : Runtime) (name : String) : Option Nat :=
  rt.stack.reverse.findSome? (fun f => lookupAssoc f.vars name)

def varNumVal (rt : Runtime) (name : String) : Option Int :=
  (topVar rt name).bind (numValAt rt)

def varStrVal (rt : Runtime) (name : String) : Option String :=
  (topVar rt name).bind (strValAt rt)

def propNumVal (rt : Runtime) (varName propName : String) : Option Int :=
  ((topVar rt varName).bind (fun i => getPropertyR rt i propName)).bind (numValAt rt)

def isOkU : Runtime × Except Error Unit → Bool
  | (_, .ok _) => true
  | (_, .error _) => false

/-! ## Concrete scenarios used by the claims.

Each scenario is a small program (an AST value, since the textual parser is
an external collaborator per spec section 1) executed on the bootstrapped
runtime. -/

def rtBoot : Runtime := Runtime.new

def numE (k : Int) : Expression := .lit (.number k)

def varE (s : String) : Expression := .var s

def strBlockOf (s : String) : Block := .mk [.expression (.lit (.stringLit s))]

def isOkN : Runtime × Except Error Nat → Bool
  | (_, .ok _) => true
  | (_, .error _) => false

def resultNum (p : Runtime × Except Error Nat) : Option Int :=
  match p.2 with
  | .ok i => numValAt p.1 i
  | .error _ => none

def resultStr (p : Runtime × Except Error Nat) : Option String :=
  match p.2 with
  | .ok i => strValAt p.1 i
  | .error _ => none

/-- C1 scenario: class A with an empty init and a method m whose body is
the single expression statement 42; then a = A(); x = a.m(). -/
def c1Program : List Statement :=
  [.classDefinition "A" (.mk
     [.methodDefinition false "init" [] (.mk []),
      .methodDefinition false "m" [] (.mk [.expression (numE 42)])]),
   .assignment (.lvVar "a") .equal (.call (varE "A") []),
   .assignment (.lvVar "x") .equal (.access (varE "a") (.call (varE "m") []))]

def c1Run : Runtime × Except Error Unit := execProgramF 32 rtBoot c1Program

/-- C1 witness method: a user-body non-init method with an empty body. -/
def c1wMethod : Method :=
  { name := "m", cls := 0, params := [], body := .user (.mk []), receiver := .inst }

/-- C2 scenario: class Foo {} (no init anywhere in its chain), then the
construction call Foo(). -/
def c2Program : List Statement := [.classDefinition "Foo" (.mk [])]

def c2Run : Runtime × Except Error Unit := execProgramF 32 rtBoot c2Program

def c2Call : Runtime × Except Error Nat := evalF 32 c2Run.1 (.call (varE "Foo") [])

def c2FooIdx : Option Nat := topVar c2Run.1 "Foo"

def c2ResultClass : Option Nat :=
  match c2Call.2 with
  | .ok i => classOf c2Call.1 i
  | .error _ => none

def c2ResultClassClass : Option Nat := c2ResultClass.bind (classOf c2Call.1)

/-- C3 scenario: n = 0; for y in [] { n = n + 1 }. -/
def c3Program : List Statement :=
  [.assignment (.lvVar "n") .equal (numE 0),
   .forIn ["y"] (.lit (.array []))
     (.mk [.assignment (.lvVar "n") .equal (.binary .plus (varE "n") (numE 1))])]

def c3Run : Runtime × Except Error Unit := execProgramF 32 rtBoot c3Program

/-- C4 scenario a: class Foo2 { init(x) { self.x = x } }; p = Foo2(5). -/
def c4aProgram : List Statement :=
  [.classDefinition "Foo2" (.mk
     [.methodDefinition false "init" ["x"]
        (.mk [.assignment (.lvAccess (varE "self") (varE "x")) .equal (varE "x")])]),
   .assignment (.lvVar "p") .equal (.call (varE "Foo2") [numE 5])]

def c4aRun : Runtime × Except Error Unit := execProgramF 32 rtBoot c4aProgram

/-- C4 scenario b: the same constructor ending in a bare return. -/
def c4bProgram : List Statement :=
  [.classDefinition "Foo3" (.mk
     [.methodDefinition false "init" ["x"]
        (.mk [.assignment (.lvAccess (varE "self") (varE "x")) .equal (varE "x"),
              .returnS none])]),
   .assignment (.lvVar "p") .equal (.call (varE "Foo3") [numE 5])]

def c4bRun : Runtime × Except Error Unit := execProgramF 32 rtBoot c4bProgram

/-- C4 scenario c: an init that returns a value. -/
def c4cProgram : List Statement :=
  [.classDefinition "Bad" (.mk
     [.methodDefinition false "init" [] (.mk [.returnS (some (numE 5))])]),
   .expression (.call (varE "Bad") [])]

def c4cRun : Runtime × Except Error Unit := execProgramF 32 rtBoot c4cProgram

/-- C4 witness method: a user-body init with an empty body. -/
def c4wMethod : Method :=
  { name := "init", cls := 0, params := [], body := .user (.mk []), receiver := .inst }

/-- C5 scenario: x = 1; f = || { x }; x = 2; then the closure call f(). -/
def c5Program : List Statement :=
  [.assignment (.lvVar "x") .equal (numE 1),
   .assignment (.lvVar "f") .equal (.closure [] (.mk [.expression (varE "x")])),
   .assignment (.lvVar "x") .equal (numE 2)]

def c5Run : Runtime × Except Error Unit := execProgramF 32 rtBoot c5Program

def c5Call : Runtime × Except Error Nat :=
  callClosureF 32 c5Run.1 ((topVar c5Run.1 "f").getD 0) []

/-- C6 scenarios: the three spec examples and two while-loop probes. -/
def c6IfZero : Runtime × Except Error Nat :=
  evalF 32 rtBoot (.ifElse (numE 0) (strBlockOf "a") (some (strBlockOf "b")))

def c6IfEmpty : Runtime × Except Error Nat :=
  evalF 32 rtBoot (.ifElse (.lit (.stringLit "")) (strBlockOf "a") (some (strBlockOf "b")))

def c6IfNil : Runtime × Except Error Nat :=
  evalF 32 rtBoot (.ifElse (.lit .nilLit) (strBlockOf "a") (some (strBlockOf "b")))

def c6WhileNilProgram : List Statement :=
  [.assignment (.lvVar "m") .equal (numE 0),
   .whileLoop (.lit .nilLit) (.mk [.assignment (.lvVar "m") .equal (numE 1)])]

def c6WhileNilRun : Runtime × Except Error Unit := execProgramF 32 rtBoot c6WhileNilProgram

def c6WhileZeroProgram : List Statement :=
  [.assignment (.lvVar "k") .equal (numE 0),
   .whileLoop (numE 0)
     (.mk [.assignment (.lvVar "k") .equal (numE 1), .breakS])]

def c6WhileZeroRun : Runtime × Except Error Unit := execProgramF 32 rtBoot c6WhileZeroProgram

/-- C7 scenarios: a short-circuit whose right operand is a call to an
undefined name (its evaluation would fail, so reaching ok shows the operand
was skipped), the spec example, and the percent probe. -/
def c7ScProgram : List Statement :=
  [.assignment (.lvVar "sc") .equal
     (.binary .logicalAnd (.lit (.boolean false)) (.call (varE "boom") []))]

def c7ScRun : Runtime × Except Error Unit := execProgramF 32 rtBoot c7ScProgram

def c7AndIf : Runtime × Except Error Nat :=
  evalF 32 rtBoot
    (.ifElse (.binary .logicalAnd (.lit (.boolean true)) (.lit (.boolean false)))
      (.mk [.expression (numE 1)]) (some (.mk [.expression (numE 2)])))

def c7Pct : Runtime × Except Error Nat :=
  evalF 32 rtBoot (.binary .percent (numE 1) (numE 2))

/-- C8 scenario: a superclass (heap index 0) owning method m, and a
subclass (heap index 1) with an empty method table, built directly on the
heap (the class-definition surface of this snapshot cannot declare
superclasses, but resolve_method and define_method are object-level
operations). -/
def c8SupMethod : Method :=
  { name := "m", cls := 0, params := [], body := .user (.mk []), receiver := .inst }

def c8SupObj : Object :=
  { cls? := some 0, superclass? := none, properties := [],
    methods := [("m", c8SupMethod)], primitive := none }

def c8SubObj : Object :=
  { cls? := some 0, superclass? := some 0, properties := [],
    methods := [], primitive := none }

def rtC8 : Runtime := { heap := [c8SupObj, c8SubObj] }

def c8Define : Runtime × Except Error Unit :=
  defineMethodAt rtC8 1 .inst "m" [.positional "y"] (.user (.mk []))

def rtC8s : Runtime := c8Define.1

def c8Redefine : Runtime × Except Error Unit :=
  defineMethodAt rtC8s 1 .inst "m" [] (.user (.mk []))

/-- C9 scenario: a user method with two positional parameters called with
one and with three arguments. -/
def c9Program : List Statement :=
  [.classDefinition "B2" (.mk
     [.methodDefinition false "init" [] (.mk []),
      .methodDefinition false "m" ["a", "b"] (.mk [.expression (numE 0)])]),
   .assignment (.lvVar "b") .equal (.call (varE "B2") [])]

def c9Run : Runtime × Except Error Unit := execProgramF 32 rtBoot c9Program

def c9CallOne : Runtime × Except Error Nat :=
  evalF 32 c9Run.1 (.access (varE "b") (.call (varE "m") [numE 1]))

def c9CallThree : Runtime × Except Error Nat :=
  evalF 32 c9Run.1 (.access (varE "b") (.call (varE "m") [numE 1, numE 2, numE 3]))

/-- C9 witness methods: a two-parameter user body and a system body. -/
def c9wMethod : Method :=
  { name := "m", cls := rtBoot.builtins.cNumber,
    params := [.positional "a", .positional "b"],
    body := .user (.mk []), receiver := .inst }

def c9wSysMethod : Method :=
  { name := "len", cls := rtBoot.builtins.cArray, params := [],
    body := .system .arrayLen, receiver := .inst }

/-- C10 scenarios: full-pipeline indexing expressions. -/
def c10ArrE : Expression := .lit (.array [numE 10, numE 20, numE 30])

def c10NegEval : Runtime × Except Error Nat := evalF 32 rtBoot (.index c10ArrE (numE (-1)))

def c10PastEval : Runtime × Except Error Nat := evalF 32 rtBoot (.index c10ArrE (numE 5))

def c10EmptyEval : Runtime × Except Error Nat :=
  evalF 32 rtBoot (.index (.lit (.array [])) (numE 0))

def c10BadEval : Runtime × Except Error Nat :=
  evalF 32 rtBoot (.index (.lit (.array [numE 1])) (.lit (.stringLit "a")))

/-- C10 witness state: a Number object holding 1 and an Array object whose
element list is the two reference values 101 and 102 (elements are
references and are returned without dereferencing). -/
def c10w1 : Runtime × Nat := createNumber rtBoot 1

def c10w2 : Runtime × Nat := createArray c10w1.1 [101, 102]

def c10w3 : Runtime × Nat := createString c10w2.1 "zz"

/-! ## Helper lemmas -/

theorem lookupAssoc_append_of_none {α : Type} (l : List (String × α)) (k : String) (v : α)
    (h : lookupAssoc l k = none) : lookupAssoc (l ++ [(k, v)]) k = some v := by
  induction l with
  | nil => simp [lookupAssoc]
  | cons hd tl ih =>
    simp only [lookupAssoc] at h ⊢
    by_cases hk : hd.1 == k
    · simp [hk] at h
    · cases hd
      simp_all [lookupAssoc]

/-- call_method on a user body that is not the constructor: push the frame
with the receiver and bound parameters, run the body, pop, then a
fall-through yields the block value, a return yields its value (nil when
bare), and any other error passes through. -/
theorem callMethod_user_noninit (fuel : Nat) (rt : Runtime) (receiver : Nat) (m : Method)
    (args : List Nat) (b : Block) (vars : List (String × Nat))
    (hbody : m.body = .user b) (hname : m.name ≠ "init")
    (harity : args.length = m.params.length)
    (hvars : buildVars m.params args = some vars) :
    callMethodF (fuel + 1) rt receiver m args =
      (let pushed := pushStackFrame rt { inst := some receiver, vars := vars }
       let res := evalBlockF fuel pushed.1 b
       let rt₃ := popStackFrame res.1 pushed.2
       (rt₃, match res.2 with
             | .ok v => .ok v
             | .error (.returnFromMethod retval) => .ok (retval.getD rt₃.builtins.nilO)
             | .error e => .error e)) := by
  have hbne : (args.length != m.params.length) = false := by simp [harity]
  have hinit : (m.name == "init") = false := by simp [hname]
  simp only [callMethodF, interp, evStep, evalBlockF, hbody, hbne, hinit, hvars,
    Bool.false_eq_true, if_false]
  cases hres : ((interp fuel).evalBlock
      (pushStackFrame rt { inst := some receiver, vars := vars }).1 b).2 with
  | ok v => simp [hres]
  | error e => cases e <;> simp [hres]

/-- call_method on a user init body: fall-through and a bare return yield
the receiver, a return with a value is ReturnFromInitializer, any other
error passes through. -/
theorem callMethod_user_init (fuel : Nat) (rt : Runtime) (receiver : Nat) (m : Method)
    (args : List Nat) (b : Block) (vars : List (String × Nat))
    (hbody : m.body = .user b) (hname : m.name = "init")
    (harity : args.length = m.params.length)
    (hvars : buildVars m.params args = some vars) :
    callMethodF (fuel + 1) rt receiver m args =
      (let pushed := pushStackFrame rt { inst := some receiver, vars := vars }
       let res := evalBlockF fuel pushed.1 b
       let rt₃ := popStackFrame res.1 pushed.2
       (rt₃, match res.2 with
             | .ok _ => .ok receiver
             | .error (.returnFromMethod none) => .ok receiver
             | .error (.returnFromMethod (some _)) => .error .returnFromInitializer
             | .error e => .error e)) := by
  have hbne : (args.length != m.params.length) = false := by simp [harity]
  have hinit : (m.name == "init") = true := by simp [hname]
  simp only [callMethodF, interp, evStep, evalBlockF, hbody, hbne, hinit, hvars,
    Bool.false_eq_true, if_false, if_true]
  cases hres : ((interp fuel).evalBlock
      (pushStackFrame rt { inst := some receiver, vars := vars }).1 b).2 with
  | ok v => simp [hres]
  | error e =>
    cases e with
    | returnFromMethod rv => cases rv <;> simp [hres]
    | _ => simp [hres]

/-- call_method arity check on user bodies, before any frame is pushed. -/
theorem callMethod_user_arity (fuel : Nat) (rt : Runtime) (receiver : Nat) (m : Method)
    (args : List Nat) (b : Block) (cn : String)
    (hbody : m.body = .user b) (hcn : objName rt m.cls = some cn)
    (harity : args.length ≠ m.params.length) :
    callMethodF (fuel + 1) rt receiver m args =
      (rt, .error (.arityMismatch cn m.name m.params.length args.length)) := by
  have hbne : (args.length != m.params.length) = true := by simpa using harity
  simp only [callMethodF, interp, evStep, hbody, hbne, hcn, if_true]

/-- call_method on a system body: the raw argument vector is handed to the
built-in with no boundary arity check. -/
theorem callMethod_system_raw (fuel : Nat) (rt : Runtime) (receiver : Nat) (m : Method)
    (args : List Nat) (tag : SystemTag) (hbody : m.body = .system tag) :
    callMethodF (fuel + 1) rt receiver m args = runSystem rt tag receiver m.name args := by
  simp only [callMethodF, interp, evStep, hbody]

theorem binary_or_truthy (fuel : Nat) (rt rt₁ : Runtime) (l r : Expression) (v : Nat)
    (hl : evalF fuel rt l = (rt₁, .ok v)) (ht : isTruthy rt₁ v = true) :
    evalF (fuel + 1) rt (.binary .logicalOr l r) = (rt₁, .ok v) := by
  simp only [evalF, interp, evStep] at hl ⊢
  simp [hl, ht]

theorem binary_or_falsy (fuel : Nat) (rt rt₁ : Runtime) (l r : Expression) (v : Nat)
    (hl : evalF fuel rt l = (rt₁, .ok v)) (hf : isFalsy rt₁ v = true) :
    evalF (fuel + 1) rt (.binary .logicalOr l r) = evalF fuel rt₁ r := by
  have ht : isTruthy rt₁ v = false := by simp [isTruthy, hf]
  simp only [evalF, interp, evStep] at hl ⊢
  simp [hl, ht]

theorem binary_and_falsy (fuel : Nat) (rt rt₁ : Runtime) (l r : Expression) (v : Nat)
    (hl : evalF fuel rt l = (rt₁, .ok v)) (hf : isFalsy rt₁ v = true) :
    evalF (fuel + 1) rt (.binary .logicalAnd l r) = (rt₁, .ok v) := by
  simp only [evalF, interp, evStep] at hl ⊢
  simp [hl, hf]

theorem binary_and_truthy (fuel : Nat) (rt rt₁ : Runtime) (l r : Expression) (v : Nat)
    (hl : evalF fuel rt l = (rt₁, .ok v)) (ht : isTruthy rt₁ v = true) :
    evalF (fuel + 1) rt (.binary .logicalAnd l r) = evalF fuel rt₁ r := by
  have hf : isFalsy rt₁ v = false := by
    simp only [isTruthy, Bool.not_eq_true'] at ht
    exact ht
  simp only [evalF, interp, evStep] at hl ⊢
  simp [hl, hf]

/-- A binary operator with a conventional method mapping (which excludes
the two short-circuit operators, whose mapping is none): left operand fully
evaluated, then the right, then the method dispatched on the left value. -/
theorem binary_dispatch (fuel : Nat) (rt rt₁ rt₂ : Runtime) (op : Operator)
    (l r : Expression) (mname : String) (v₁ v₂ : Nat)
    (hop : methodForBinaryOp op = some mname)
    (hl : evalF fuel rt l = (rt₁, .ok v₁))
    (hr : evalF fuel rt₁ r = (rt₂, .ok v₂)) :
    evalF (fuel + 1) rt (.binary op l r) = callInstanceMethodF fuel rt₂ v₁ mname [v₂] := by
  simp only [evalF, interp, evStep, callInstanceMethodF] at hl hr ⊢
  cases op <;> simp_all [methodForBinaryOp]

theorem binary_lhs_error (fuel : Nat) (rt rt₁ : Runtime) (op : Operator)
    (l r : Expression) (e : Error) (hl : evalF fuel rt l = (rt₁, .error e)) :
    evalF (fuel + 1) rt (.binary op l r) = (rt₁, .error e) := by
  simp only [evalF, interp, evStep] at hl ⊢
  simp [hl]

theorem resolveOwn_hit (d : Nat) (rt : Runtime) (i : Nat) (name : String)
    (o : Object) (m : Method) (hh : heapGet rt i = some o)
    (hl : lookupAssoc o.methods name = some m) :
    resolveOwnMethodGo (d + 1) rt i name = some m := by
  simp [resolveOwnMethodGo, hh, hl]

theorem resolveOwn_delegate (d : Nat) (rt : Runtime) (i : Nat) (name : String)
    (o : Object) (s : Nat) (hh : heapGet rt i = some o)
    (hl : lookupAssoc o.methods name = none) (hs : o.superclass? = some s) :
    resolveOwnMethodGo (d + 1) rt i name = resolveOwnMethodGo d rt s name := by
  simp [resolveOwnMethodGo, hh, hl, hs]

theorem resolveOwn_exhausted (rt : Runtime) (i : Nat) (name : String) (o : Object)
    (hh : heapGet rt i = some o) (hl : lookupAssoc o.methods name = none)
    (hs : o.superclass? = none) :
    resolveOwnMethod rt i name = none := by
  simp [resolveOwnMethod, resolveOwnMethodGo, hh, hl, hs]

theorem defineMethod_duplicate (rt : Runtime) (i : Nat) (o : Object)
    (recv : MethodReceiver) (nm : String) (params : List Param) (body : MethodBody)
    (hh : heapGet rt i = some o) (hl : (lookupAssoc o.methods nm).isSome = true) :
    defineMethodAt rt i recv nm params body =
      (rt, .error (.duplicateMethodDefinition "Class" nm)) := by
  simp [defineMethodAt, hh, hl]

/-- A fresh define_method succeeds, mutates only the target object, and the
target object afterwards resolves the new method record. -/
theorem defineMethod_fresh (rt : Runtime) (i : Nat) (o : Object) (recv : MethodReceiver)
    (nm : String) (params : List Param) (body : MethodBody)
    (hh : heapGet rt i = some o) (hl : lookupAssoc o.methods nm = none) :
    (defineMethodAt rt i recv nm params body).2 = .ok ()
    ∧ (∀ j, j ≠ i → heapGet (defineMethodAt rt i recv nm params body).1 j = heapGet rt j)
    ∧ resolveOwnMethod (defineMethodAt rt i recv nm params body).1 i nm =
        some { name := nm, cls := i, params := params, body := body, receiver := recv } := by
  have hl2 : (lookupAssoc o.methods nm).isSome = false := by simp [hl]
  simp only [heapGet, List.get?_eq_getElem?] at hh
  have hlt : i < rt.heap.length := by
    rcases Nat.lt_or_ge i rt.heap.length with h | h
    · exact h
    · rw [List.getElem?_eq_none h] at hh
      cases hh
  refine ⟨?_, ?_, ?_⟩
  · simp [defineMethodAt, heapGet, List.get?_eq_getElem?, hh, hl2]
  · intro j hj
    simp only [defineMethodAt, heapGet, List.get?_eq_getElem?, hh, hl2,
      Bool.false_eq_true, if_false, updateObject]
    exact List.getElem?_set_ne (Ne.symm hj)
  · simp only [defineMethodAt, heapGet, List.get?_eq_getElem?, hh, hl2,
      Bool.false_eq_true, if_false, updateObject, resolveOwnMethod, List.length_set]
    simp only [resolveOwnMethodGo, heapGet, List.get?_eq_getElem?,
      List.getElem?_set_eq_of_lt _ hlt]
    simp [lookupAssoc_append_of_none _ _ _ hl]

theorem arrayIndex_type_mismatch (rt : Runtime) (this idx ic : Nat) (icn : String)
    (hc : classOf rt idx = some ic) (hic : ic ≠ rt.builtins.cNumber)
    (hn : objName rt ic = some icn) :
    sysArrayIndexBody rt this idx = (rt, .error (.typeMismatch "Number" icn)) := by
  have hb : (ic != rt.builtins.cNumber) = true := by simpa using hic
  simp [sysArrayIndexBody, hc, hb, hn]

theorem arrayIndex_empty (rt : Runtime) (this idx : Nat)
    (hc : classOf rt idx = some rt.builtins.cNumber)
    (ha : arrValAt rt this = some []) :
    sysArrayIndexBody rt this idx = (rt, .ok rt.builtins.nilO) := by
  simp [sysArrayIndexBody, hc, ha]

theorem arrayIndex_negative (rt : Runtime) (this idx : Nat) (n : Int) (xs : List Nat)
    (hc : classOf rt idx = some rt.builtins.cNumber)
    (ha : arrValAt rt this = some xs) (hne : xs ≠ [])
    (hn : numValAt rt idx = some n) (hneg : n < 0) :
    (xs.get? (n.emod (xs.length : Int)).toNat).isSome = true ∧
      sysArrayIndexBody rt this idx =
        (rt, .ok ((xs.get? (n.emod (xs.length : Int)).toNat).getD 0)) := by
  have hlen : 0 < (xs.length : Int) := by
    have := List.length_pos.mpr hne
    exact_mod_cast this
  have h0 : 0 ≤ n.emod (xs.length : Int) := Int.emod_nonneg n (by omega)
  have h1 : n.emod (xs.length : Int) < (xs.length : Int) := Int.emod_lt_of_pos n hlen
  have h2 : (n.emod (xs.length : Int)).toNat < xs.length := by omega
  have hget : xs.get? (n.emod (xs.length : Int)).toNat = some (xs.get ⟨_, h2⟩) :=
    List.get?_eq_get h2
  have hemp : xs.isEmpty = false := by
    cases xs with
    | nil => exact absurd rfl hne
    | cons a l => rfl
  refine ⟨by rw [hget]; rfl, ?_⟩
  simp only [sysArrayIndexBody, hc, bne_self_eq_false, ha, hn, hemp,
    Bool.false_eq_true, if_false, if_pos hneg]
  rw [if_neg (by omega), hget]
  simp

theorem arrayIndex_past (rt : Runtime) (this idx : Nat) (n : Int) (xs : List Nat)
    (hc : classOf rt idx = some rt.builtins.cNumber)
    (ha : arrValAt rt this = some xs) (hne : xs ≠ [])
    (hn : numValAt rt idx = some n) (hge : (xs.length : Int) ≤ n) :
    sysArrayIndexBody rt this idx = (rt, .ok rt.builtins.nilO) := by
  have hlen : 0 < (xs.length : Int) := by
    have := List.length_pos.mpr hne
    exact_mod_cast this
  have hemp : xs.isEmpty = false := by
    cases xs with
    | nil => exact absurd rfl hne
    | cons a l => rfl
  have hnneg : ¬ n < 0 := by omega
  simp only [sysArrayIndexBody, hc, bne_self_eq_false, ha, hn, hemp,
    Bool.false_eq_true, if_false, if_neg hnneg]
  rw [if_pos hge]

theorem arrayIndex_in_range (rt : Runtime) (this idx : Nat) (n : Int) (xs : List Nat)
    (hc : classOf rt idx = some rt.builtins.cNumber)
    (ha : arrValAt rt this = some xs)
    (hn : numValAt rt idx = some n) (h0 : 0 ≤ n) (hlt : n < (xs.length : Int)) :
    (xs.get? n.toNat).isSome = true ∧
      sysArrayIndexBody rt this idx = (rt, .ok ((xs.get? n.toNat).getD 0)) := by
  have h2 : n.toNat < xs.length := by omega
  have hget : xs.get? n.toNat = some (xs.get ⟨_, h2⟩) := List.get?_eq_get h2
  have hemp : xs.isEmpty = false := by
    cases xs with
    | nil => simp at h2
    | cons a l => rfl
  have hnneg : ¬ n < 0 := by omega
  have hnle : ¬ (xs.length : Int) ≤ n := by omega
  refine ⟨by rw [hget]; rfl, ?_⟩
  simp only [sysArrayIndexBody, hc, bne_self_eq_false, ha, hn, hemp,
    Bool.false_eq_true, if_false, if_neg hnneg, if_neg hnle]
  rw [hget]
  simp

/-! ## Claim theorems -/

/-- C1 (amended): for every call of a user-body method whose name is not
init, the frame is pushed with the receiver and bound parameters, the body
runs, the frame is popped, and then: fall-through yields the value of the
body block (the final expression statement's value, nil otherwise); a
return with a value yields that value; a bare return yields nil; any other
error passes through; and the return signal is caught exactly at this call
boundary: the call result is never a ReturnFromMethod signal. -/
theorem c1_noninit_call_contract :
    (∀ (fuel : Nat) (rt : Runtime) (receiver : Nat) (m : Method) (args : List Nat)
       (b : Block) (vars : List (String × Nat)),
       m.body = .user b → m.name ≠ "init" → args.length = m.params.length →
       buildVars m.params args = some vars →
       callMethodF (fuel + 1) rt receiver m args =
         (let pushed := pushStackFrame rt { inst := some receiver, vars := vars }
          let res := evalBlockF fuel pushed.1 b
          let rt₃ := popStackFrame res.1 pushed.2
          (rt₃, match res.2 with
                | .ok v => .ok v
                | .error (.returnFromMethod retval) => .ok (retval.getD rt₃.builtins.nilO)
                | .error e => .error e)))
    ∧ (∀ (fuel : Nat) (rt : Runtime) (receiver : Nat) (m : Method) (args : List Nat)
         (b : Block) (vars : List (String × Nat)) (rt₂ : Runtime) (rv : Option Nat),
         m.body = .user b → m.name ≠ "init" → args.length = m.params.length →
         buildVars m.params args = some vars →
         callMethodF (fuel + 1) rt receiver m args ≠
           (rt₂, .error (.returnFromMethod rv))) := by
  refine ⟨callMethod_user_noninit, ?_⟩
  intro fuel rt receiver m args b vars rt₂ rv h1 h2 h3 h4 hcontra
  rw [callMethod_user_noninit fuel rt receiver m args b vars h1 h2 h3 h4] at hcontra
  cases hres : (evalBlockF fuel
      (pushStackFrame rt { inst := some receiver, vars := vars }).1 b).2 with
  | ok v => simp [hres] at hcontra
  | error e => cases e <;> simp [hres] at hcontra

/-- C1 witness: the contract applied to a concrete empty-bodied method m on
the bootstrapped runtime. -/
theorem c1_noninit_call_contract_witness :
    (callMethodF 3 rtBoot 0 c1wMethod [] =
      (let pushed := pushStackFrame rtBoot { inst := some 0, vars := [] }
       let res := evalBlockF 2 pushed.1 (Block.mk [])
       let rt₃ := popStackFrame res.1 pushed.2
       (rt₃, match res.2 with
             | .ok v => .ok v
             | .error (.returnFromMethod retval) => .ok (retval.getD rt₃.builtins.nilO)
             | .error e => .error e)))
    ∧ callMethodF 3 rtBoot 0 c1wMethod [] ≠ (rtBoot, .error (.returnFromMethod none)) :=
  ⟨c1_noninit_call_contract.1 2 rtBoot 0 c1wMethod [] (.mk []) [] rfl (by decide) rfl rfl,
   c1_noninit_call_contract.2 2 rtBoot 0 c1wMethod [] (.mk []) [] rtBoot none rfl
     (by decide) rfl rfl⟩

/-- C1 counterexample: in the program of c1Program, the method m falls
through without executing a return statement, yet the call a.m() yields the
Number 42 object (the value of the final expression statement of the body),
not nil as the claim states. -/
theorem c1_fallthrough_counterexample :
    c1Run.2 = .ok () ∧ varNumVal c1Run.1 "x" = some 42 ∧
      topVar c1Run.1 "x" ≠ some c1Run.1.builtins.nilO := by
  refine ⟨rfl, rfl, by decide⟩

/-- C2: the construction call Foo() on a class with no init in its chain
executes, but the object it returns is not an instance of Foo: its class
reference is the first allocated instance itself (the synthesized system
init body calls create_object on its receiver), contradicting the claim
that the call yields the newly allocated instance of the class. -/
theorem c2_construction_divergence :
    c2Run.2 = .ok () ∧ isOkN c2Call = true ∧ c2FooIdx.isSome = true ∧
      c2ResultClass.isSome = true ∧ c2ResultClass ≠ c2FooIdx ∧
      c2ResultClassClass = c2FooIdx :=
  ⟨rfl, rfl, rfl, rfl, by decide, rfl⟩

/-- C3: with the spec-modelled iterator protocol installed, a for-in over
an empty Array literal completes without error and runs the body zero times
(the counter n is still 0 afterwards). -/
theorem c3_empty_array_forin :
    c3Run.2 = .ok () ∧ varNumVal c3Run.1 "n" = some 0 :=
  ⟨rfl, rfl⟩

/-- C4: for a user-body init, fall-through and a bare return yield the
receiver, a return with a value fails with ReturnFromInitializer, and any
other error passes through; concretely, Foo2(5) and the bare-return variant
both yield an instance whose x property is the Number 5, and a
value-returning init fails with ReturnFromInitializer. -/
theorem c4_init_return_contract :
    (∀ (fuel : Nat) (rt : Runtime) (receiver : Nat) (m : Method) (args : List Nat)
       (b : Block) (vars : List (String × Nat)),
       m.body = .user b → m.name = "init" → args.length = m.params.length →
       buildVars m.params args = some vars →
       callMethodF (fuel + 1) rt receiver m args =
         (let pushed := pushStackFrame rt { inst := some receiver, vars := vars }
          let res := evalBlockF fuel pushed.1 b
          let rt₃ := popStackFrame res.1 pushed.2
          (rt₃, match res.2 with
                | .ok _ => .ok receiver
                | .error (.returnFromMethod none) => .ok receiver
                | .error (.returnFromMethod (some _)) => .error .returnFromInitializer
                | .error e => .error e)))
    ∧ (c4aRun.2 = .ok () ∧ propNumVal c4aRun.1 "p" "x" = some 5)
    ∧ (c4bRun.2 = .ok () ∧ propNumVal c4bRun.1 "p" "x" = some 5)
    ∧ c4cRun.2 = .error .returnFromInitializer :=
  ⟨callMethod_user_init, ⟨rfl, rfl⟩, ⟨rfl, rfl⟩, rfl⟩

/-- C4 witness: the init contract applied to a concrete empty-bodied init
on the bootstrapped runtime. -/
theorem c4_init_return_contract_witness :
    callMethodF 3 rtBoot 7 c4wMethod [] =
      (let pushed := pushStackFrame rtBoot { inst := some 7, vars := [] }
       let res := evalBlockF 2 pushed.1 (Block.mk [])
       let rt₃ := popStackFrame res.1 pushed.2
       (rt₃, match res.2 with
             | .ok _ => .ok 7
             | .error (.returnFromMethod none) => .ok 7
             | .error (.returnFromMethod (some _)) => .error .returnFromInitializer
             | .error e => .error e)) :=
  c4_init_return_contract.1 2 rtBoot 7 c4wMethod [] (.mk []) [] rfl rfl rfl rfl

/-- C5: with the spec-modelled Closure class bootstrapped and closure
invocation going through call_closure, the program x = 1; f = closure of x;
x = 2 leaves x at 2 while calling f yields the captured Number 1: the
static free-variable scan copied the value at creation time. -/
theorem c5_closure_capture_by_value :
    c5Run.2 = .ok () ∧ varNumVal c5Run.1 "x" = some 2 ∧ resultNum c5Call = some 1 :=
  ⟨rfl, rfl, rfl⟩

/-- C6: a condition is treated as false exactly when it is the interned
false singleton or the interned nil singleton (reference identity); the
Number 0 and the empty string are truthy in if-expressions, nil selects the
else branch, a nil while-condition runs the body zero times and a 0
while-condition enters the body. -/
theorem c6_falsy_exactly_false_and_nil :
    (∀ (rt : Runtime) (i : Nat),
       isFalsy rt i =
         (decide (i = rt.builtins.boolFalse) || decide (i = rt.builtins.nilO)))
    ∧ resultStr c6IfZero = some "a"
    ∧ resultStr c6IfEmpty = some "a"
    ∧ resultStr c6IfNil = some "b"
    ∧ (c6WhileNilRun.2 = .ok () ∧ varNumVal c6WhileNilRun.1 "m" = some 0)
    ∧ (c6WhileZeroRun.2 = .ok () ∧ varNumVal c6WhileZeroRun.1 "k" = some 1) := by
  refine ⟨?_, rfl, rfl, rfl, ⟨rfl, rfl⟩, ⟨rfl, rfl⟩⟩
  intro rt i
  by_cases h1 : i = rt.builtins.boolFalse <;> by_cases h2 : i = rt.builtins.nilO <;>
    simp [isFalsy, h1, h2]

/-- C7 (amended): the evaluator treats the two short-circuit operators
specially and never dispatches them: a truthy (falsy) left value is
returned by or (and) with the right operand not evaluated at all, the state
being exactly the post-left state; otherwise the right operand's value is
returned; a left error propagates before the right operand is touched;
every binary operator with a conventional double-underscore method mapping
evaluates left then right and dispatches that method on the left value;
concretely, false and boom() succeeds with the false singleton although
boom is undefined, and true and false selects the else branch. -/
theorem c7_short_circuit_and_dispatch :
    (∀ (fuel : Nat) (rt rt₁ : Runtime) (l r : Expression) (v : Nat),
       evalF fuel rt l = (rt₁, .ok v) → isTruthy rt₁ v = true →
       evalF (fuel + 1) rt (.binary .logicalOr l r) = (rt₁, .ok v))
    ∧ (∀ (fuel : Nat) (rt rt₁ : Runtime) (l r : Expression) (v : Nat),
         evalF fuel rt l = (rt₁, .ok v) → isFalsy rt₁ v = true →
         evalF (fuel + 1) rt (.binary .logicalOr l r) = evalF fuel rt₁ r)
    ∧ (∀ (fuel : Nat) (rt rt₁ : Runtime) (l r : Expression) (v : Nat),
         evalF fuel rt l = (rt₁, .ok v) → isFalsy rt₁ v = true →
         evalF (fuel + 1) rt (.binary .logicalAnd l r) = (rt₁, .ok v))
    ∧ (∀ (fuel : Nat) (rt rt₁ : Runtime) (l r : Expression) (v : Nat),
         evalF fuel rt l = (rt₁, .ok v) → isTruthy rt₁ v = true →
         evalF (fuel + 1) rt (.binary .logicalAnd l r) = evalF fuel rt₁ r)
    ∧ (∀ (fuel : Nat) (rt rt₁ rt₂ : Runtime) (op : Operator) (l r : Expression)
         (mname : String) (v₁ v₂ : Nat),
         methodForBinaryOp op = some mname →
         evalF fuel rt l = (rt₁, .ok v₁) → evalF fuel rt₁ r = (rt₂, .ok v₂) →
         evalF (fuel + 1) rt (.binary op l r) =
           callInstanceMethodF fuel rt₂ v₁ mname [v₂])
    ∧ (∀ (fuel : Nat) (rt rt₁ : Runtime) (op : Operator) (l r : Expression) (e : Error),
         evalF fuel rt l = (rt₁, .error e) →
         evalF (fuel + 1) rt (.binary op l r) = (rt₁, .error e))
    ∧ (c7ScRun.2 = .ok () ∧ topVar c7ScRun.1 "sc" = some rtBoot.builtins.boolFalse)
    ∧ resultNum c7AndIf = some 2 := by
  refine ⟨?_, ?_, ?_, ?_, ?_, ?_, ⟨rfl, rfl⟩, rfl⟩
  · intro fuel rt rt₁ l r v hl ht
    exact binary_or_truthy fuel rt rt₁ l r v hl ht
  · intro fuel rt rt₁ l r v hl hf
    exact binary_or_falsy fuel rt rt₁ l r v hl hf
  · intro fuel rt rt₁ l r v hl hf
    exact binary_and_falsy fuel rt rt₁ l r v hl hf
  · intro fuel rt rt₁ l r v hl ht
    exact binary_and_truthy fuel rt rt₁ l r v hl ht
  · intro fuel rt rt₁ rt₂ op l r mname v₁ v₂ hop hl hr
    exact binary_dispatch fuel rt rt₁ rt₂ op l r mname v₁ v₂ hop hl hr
  · intro fuel rt rt₁ op l r e hl
    exact binary_lhs_error fuel rt rt₁ op l r e hl

/-- C7 witness: the or short circuit and the dispatch equation at concrete
inputs on the bootstrapped runtime. -/
theorem c7_short_circuit_and_dispatch_witness :
    evalF 3 rtBoot (.binary .logicalOr (.lit (.boolean true)) (.call (varE "boom") [])) =
      (rtBoot, .ok rtBoot.builtins.boolTrue)
    ∧ evalF 3 rtBoot (.binary .plus (numE 1) (numE 2)) =
        callInstanceMethodF 2 (createNumber (createNumber rtBoot 1).1 2).1
          (createNumber rtBoot 1).2 "__add__" [(createNumber (createNumber rtBoot 1).1 2).2] :=
  ⟨c7_short_circuit_and_dispatch.1 2 rtBoot rtBoot (.lit (.boolean true))
     (.call (varE "boom") []) rtBoot.builtins.boolTrue rfl (by decide),
   c7_short_circuit_and_dispatch.2.2.2.2.1 2 rtBoot (createNumber rtBoot 1).1
     (createNumber (createNumber rtBoot 1).1 2).1 .plus (numE 1) (numE 2) "__add__"
     (createNumber rtBoot 1).2 (createNumber (createNumber rtBoot 1).1 2).2 rfl rfl rfl⟩

/-- C7 counterexample: the percent operator has no conventional method
mapping, and evaluating 1 percent 2 aborts with the modelled Rust panic
(the unwrap on method_for_binary_op) after evaluating both operands, rather
than dispatching an operator method as the claim states for every
non-short-circuit binary operator. -/
theorem c7_percent_counterexample :
    c7Pct.2 = .error .panicked ∧ methodForBinaryOp .percent = none :=
  ⟨rfl, rfl⟩

/-- C8: resolve_method returns an own-table hit immediately; on a miss it
delegates to the superclass and yields none when no superclass remains;
define_method rejects exactly a duplicate name on the same object with
DuplicateMethodDefinition, and a fresh definition mutates only the target
object; concretely, the subclass of rtC8 resolves the superclass's m,
shadowing it by a subclass definition leaves the superclass's table and
resolution untouched, and redefining m on the subclass is rejected. -/
theorem c8_resolution_and_define :
    (∀ (d : Nat) (rt : Runtime) (i : Nat) (name : String) (o : Object) (m : Method),
       heapGet rt i = some o → lookupAssoc o.methods name = some m →
       resolveOwnMethodGo (d + 1) rt i name = some m)
    ∧ (∀ (d : Nat) (rt : Runtime) (i : Nat) (name : String) (o : Object) (s : Nat),
         heapGet rt i = some o → lookupAssoc o.methods name = none →
         o.superclass? = some s →
         resolveOwnMethodGo (d + 1) rt i name = resolveOwnMethodGo d rt s name)
    ∧ (∀ (rt : Runtime) (i : Nat) (name : String) (o : Object),
         heapGet rt i = some o → lookupAssoc o.methods name = none →
         o.superclass? = none → resolveOwnMethod rt i name = none)
    ∧ (∀ (rt : Runtime) (i : Nat) (o : Object) (recv : MethodReceiver) (nm : String)
         (params : List Param) (body : MethodBody),
         heapGet rt i = some o → (lookupAssoc o.methods nm).isSome = true →
         defineMethodAt rt i recv nm params body =
           (rt, .error (.duplicateMethodDefinition "Class" nm)))
    ∧ (∀ (rt : Runtime) (i : Nat) (o : Object) (recv : MethodReceiver) (nm : String)
         (params : List Param) (body : MethodBody),
         heapGet rt i = some o → lookupAssoc o.methods nm = none →
         (defineMethodAt rt i recv nm params body).2 = .ok ()
         ∧ (∀ j, j ≠ i →
              heapGet (defineMethodAt rt i recv nm params body).1 j = heapGet rt j)
         ∧ resolveOwnMethod (defineMethodAt rt i recv nm params body).1 i nm =
             some { name := nm, cls := i, params := params, body := body,
                    receiver := recv })
    ∧ resolveOwnMethod rtC8 1 "m" = some c8SupMethod
    ∧ c8Define.2 = .ok ()
    ∧ (resolveOwnMethod rtC8s 1 "m").map (fun mm => mm.cls) = some 1
    ∧ resolveOwnMethod rtC8s 0 "m" = some c8SupMethod
    ∧ heapGet rtC8s 0 = heapGet rtC8 0
    ∧ c8Redefine.2 = .error (.duplicateMethodDefinition "Class" "m") :=
  ⟨resolveOwn_hit, resolveOwn_delegate, resolveOwn_exhausted, defineMethod_duplicate,
   defineMethod_fresh, rfl, rfl, rfl, rfl, rfl, rfl⟩

/-- C8 witness: the resolution and definition facts instantiated on the
concrete two-class heap rtC8. -/
theorem c8_resolution_and_define_witness :
    resolveOwnMethodGo 1 rtC8 0 "m" = some c8SupMethod
    ∧ resolveOwnMethodGo 2 rtC8 1 "m" = resolveOwnMethodGo 1 rtC8 0 "m"
    ∧ defineMethodAt rtC8 0 .inst "m" [] (.user (.mk [])) =
        (rtC8, .error (.duplicateMethodDefinition "Class" "m"))
    ∧ (defineMethodAt rtC8 1 .inst "m" [.positional "y"] (.user (.mk []))).2 = .ok () :=
  ⟨c8_resolution_and_define.1 0 rtC8 0 "m" c8SupObj c8SupMethod rfl rfl,
   c8_resolution_and_define.2.1 1 rtC8 1 "m" c8SubObj 0 rfl rfl rfl,
   c8_resolution_and_define.2.2.2.1 rtC8 0 c8SupObj .inst "m" [] (.user (.mk [])) rfl rfl,
   (c8_resolution_and_define.2.2.2.2.1 rtC8 1 c8SubObj .inst "m" [.positional "y"]
     (.user (.mk [])) rfl rfl).1⟩

/-- C9: a user-body call whose argument count differs from the declared
parameter count fails with ArityMismatch carrying the parameter count as
expected and the argument count as actual, before any frame is pushed; a
system-body call is handed the raw argument vector with no boundary check;
concretely, a 2-parameter user method called with 1 or 3 arguments fails
with expected 2 and actual 1 or 3. -/
theorem c9_arity_mismatch :
    (∀ (fuel : Nat) (rt : Runtime) (receiver : Nat) (m : Method) (args : List Nat)
       (b : Block) (cn : String),
       m.body = .user b → objName rt m.cls = some cn →
       args.length ≠ m.params.length →
       callMethodF (fuel + 1) rt receiver m args =
         (rt, .error (.arityMismatch cn m.name m.params.length args.length)))
    ∧ (∀ (fuel : Nat) (rt : Runtime) (receiver : Nat) (m : Method) (args : List Nat)
         (tag : SystemTag),
         m.body = .system tag →
         callMethodF (fuel + 1) rt receiver m args =
           runSystem rt tag receiver m.name args)
    ∧ c9CallOne.2 = .error (.arityMismatch "B2" "m" 2 1)
    ∧ c9CallThree.2 = .error (.arityMismatch "B2" "m" 2 3) :=
  ⟨callMethod_user_arity, callMethod_system_raw, rfl, rfl⟩

/-- C9 witness: the arity check and the raw system dispatch at concrete
methods on the bootstrapped runtime. -/
theorem c9_arity_mismatch_witness :
    callMethodF 1 rtBoot 0 c9wMethod [0] = (rtBoot, .error (.arityMismatch "Number" "m" 2 1))
    ∧ callMethodF 1 rtBoot 0 c9wSysMethod [5, 6] =
        runSystem rtBoot .arrayLen 0 "len" [5, 6] :=
  ⟨c9_arity_mismatch.1 0 rtBoot 0 c9wMethod [0] (.mk []) "Number" rfl rfl (by decide),
   c9_arity_mismatch.2.1 0 rtBoot 0 c9wSysMethod [5, 6] .arrayLen rfl⟩

/-- C10: the Array __index__ builtin rejects a non-Number index with
TypeMismatch expecting Number, returns nil on an empty array, reduces a
negative index with the Euclidean remainder by the length before lookup,
returns nil at or past the length, and never fails on any Number index;
runSystem hands a one-argument vector straight to the body; concretely,
index -1 of a three-element array is its last element, index 5 is nil,
index 0 of an empty array is nil and a String index is a TypeMismatch. -/
theorem c10_array_index_total :
    (∀ (rt : Runtime) (this idx ic : Nat) (icn : String),
       classOf rt idx = some ic → ic ≠ rt.builtins.cNumber →
       objName rt ic = some icn →
       sysArrayIndexBody rt this idx = (rt, .error (.typeMismatch "Number" icn)))
    ∧ (∀ (rt : Runtime) (this idx : Nat),
         classOf rt idx = some rt.builtins.cNumber → arrValAt rt this = some [] →
         sysArrayIndexBody rt this idx = (rt, .ok rt.builtins.nilO))
    ∧ (∀ (rt : Runtime) (this idx : Nat) (n : Int) (xs : List Nat),
         classOf rt idx = some rt.builtins.cNumber → arrValAt rt this = some xs →
         xs ≠ [] → numValAt rt idx = some n → n < 0 →
         (xs.get? (n.emod (xs.length : Int)).toNat).isSome = true ∧
           sysArrayIndexBody rt this idx =
             (rt, .ok ((xs.get? (n.emod (xs.length : Int)).toNat).getD 0)))
    ∧ (∀ (rt : Runtime) (this idx : Nat) (n : Int) (xs : List Nat),
         classOf rt idx = some rt.builtins.cNumber → arrValAt rt this = some xs →
         xs ≠ [] → numValAt rt idx = some n → (xs.length : Int) ≤ n →
         sysArrayIndexBody rt this idx = (rt, .ok rt.builtins.nilO))
    ∧ (∀ (rt : Runtime) (this idx : Nat) (n : Int) (xs : List Nat),
         classOf rt idx = some rt.builtins.cNumber → arrValAt rt this = some xs →
         numValAt rt idx = some n → 0 ≤ n → n < (xs.length : Int) →
         (xs.get? n.toNat).isSome = true ∧
           sysArrayIndexBody rt this idx = (rt, .ok ((xs.get? n.toNat).getD 0)))
    ∧ (∀ (rt : Runtime) (this idx : Nat) (n : Int) (xs : List Nat),
         classOf rt idx = some rt.builtins.cNumber → arrValAt rt this = some xs →
         numValAt rt idx = some n →
         ∃ v, sysArrayIndexBody rt this idx = (rt, .ok v))
    ∧ (∀ (rt : Runtime) (this : Nat) (mName : String) (idx : Nat),
         runSystem rt .arrayIndex this mName [idx] = sysArrayIndexBody rt this idx)
    ∧ resultNum c10NegEval = some 30
    ∧ c10PastEval.2 = .ok rtBoot.builtins.nilO
    ∧ c10EmptyEval.2 = .ok rtBoot.builtins.nilO
    ∧ c10BadEval.2 = .error (.typeMismatch "Number" "String") := by
  refine ⟨arrayIndex_type_mismatch, arrayIndex_empty, arrayIndex_negative,
    arrayIndex_past, arrayIndex_in_range, ?_, fun _ _ _ _ => rfl, rfl, rfl, rfl, rfl⟩
  intro rt this idx n xs hc ha hn
  by_cases hxs : xs = []
  · subst hxs
    exact ⟨rt.builtins.nilO, arrayIndex_empty rt this idx hc ha⟩
  · by_cases hneg : n < 0
    · obtain ⟨_, he⟩ := arrayIndex_negative rt this idx n xs hc ha hxs hn hneg
      exact ⟨_, he⟩
    · by_cases hge : (xs.length : Int) ≤ n
      · exact ⟨rt.builtins.nilO, arrayIndex_past rt this idx n xs hc ha hxs hn hge⟩
      · obtain ⟨_, he⟩ :=
          arrayIndex_in_range rt this idx n xs hc ha hn (by omega) (by omega)
        exact ⟨_, he⟩

/-- C10 witness: the in-range and type-mismatch characterisations at
concrete objects allocated on the bootstrapped runtime. -/
theorem c10_array_index_total_witness :
    (([101, 102].get? (1 : Int).toNat).isSome = true ∧
       sysArrayIndexBody c10w2.1 c10w2.2 c10w1.2 =
         (c10w2.1, .ok (([101, 102].get? (1 : Int).toNat).getD 0)))
    ∧ sysArrayIndexBody c10w3.1 c10w2.2 c10w3.2 =
        (c10w3.1, .error (.typeMismatch "Number" "String")) :=
  ⟨c10_array_index_total.2.2.2.2.1 c10w2.1 c10w2.2 c10w1.2 1 [101, 102] rfl rfl rfl
     (by decide) (by decide),
   c10_array_index_total.1 c10w3.1 c10w2.2 c10w3.2 c10w3.1.builtins.cString "String"
     rfl (by decide) rfl⟩
